import Mathlib

/-!
TPM benchmark harness: scenario catalog, executors and runner.

A shallow embedding of `src/go/main.go`, and the properties of its scenario
catalog (`selectTest`, `test.String`, `allTestNames`), of its four executors
(`runSealUnseal`, `runPCRExtend`, `runRSA`, `runECC`), of its runner
(`test.run`) and of `mainErr`.

Go values are modelled as follows.

* `test` (Go `type test int`) is an integer.
* A Go `string` is a Lean `String` (a valid UTF-8 string); a `[]byte` is the
  list of its byte values.
* A Go `error` is `Option GoError`, and `none` is `nil`.
* The session (Go `transport.TPM`) is a function that answers each command
  given the commands issued before it.  Every function that uses the session
  takes the list of the commands issued so far, in chronological order, and
  hands back the extended list.
* The clock is read by `test.run` only to measure the duration of the loop;
  the measured duration is a parameter of `test.run`.
-/

namespace TpmBench

/-! ## Scenario catalog -/

/-! Go `type test int`: a scenario selector is an integer, and the declarations
of the Go type `test` are in the namespace `test`. -/

def unspecified : Int := 0

def sealUnseal : Int := 1

def pcrExtend : Int := 2

def rsa2048CreateSignVerify : Int := 3

def eccp256CreateSignVerify : Int := 4

def firstTest : Int := sealUnseal

def lastTest : Int := eccp256CreateSignVerify

/-- Go `func (t test) String() string`. -/
def test.String (t : Int) : String :=
  if t = sealUnseal then "seal_unseal"
  else if t = pcrExtend then "pcr_extend"
  else if t = rsa2048CreateSignVerify then "rsa_2048_create_sign_verify"
  else if t = eccp256CreateSignVerify then "ecc_p256_create_sign_verify"
  else "<invalid test selector " ++ toString t ++ ">"

/-- Go error values.  `external` is an error value handed back by a
collaborator library (transport, TPM command execution); `errorf` is a fresh
value built by `fmt.Errorf` inside this program, carrying its message. -/
inductive GoError where
  | external (text : String)
  | errorf (text : String)
  deriving DecidableEq, Repr

/-- Lower-casing of one ASCII rune, as `strings.ToLower` does it. -/
def asciiToLower (c : Char) : Char :=
  if 65 ≤ c.toNat ∧ c.toNat ≤ 90 then Char.ofNat (c.toNat + 32) else c

/-- Go `strings.ToLower` on a valid UTF-8 string: every rune is mapped on its
own; ASCII runes by the fixed rule, the other runes by `unicode.ToLower`, which
is the parameter `lowerRune`. -/
def ToLower (lowerRune : Char → Char) (s : String) : String :=
  String.mk (s.data.map fun c => if c.toNat < 128 then asciiToLower c else lowerRune c)

set_option linter.unusedVariables false in
/-- The loop of `allTestNames`: `for test := firstTest; test <= lastTest; test++`. -/
def allTestNames.loop (t : Int) (result : List String) : List String :=
  if h : t ≤ lastTest then allTestNames.loop (t + 1) (result ++ [test.String t]) else result
termination_by (lastTest + 1 - t).toNat
decreasing_by
  have h4 : t ≤ 4 := h
  show (4 + 1 - (t + 1)).toNat < (4 + 1 - t).toNat
  omega

/-- Go `func allTestNames() []string`.  The capacity given to `make` has no
effect on the value: `append` grows the slice. -/
def allTestNames : List String :=
  allTestNames.loop firstTest []

/-- The `%v` rendering of a `[]string` by package fmt. -/
def fmtStrings (xs : List String) : String :=
  "[" ++ " ".intercalate xs ++ "]"

/-- Go `func selectTest(testName string) (test, error)`. -/
def selectTest (lowerRune : Char → Char) (testName : String) : Int × Option GoError :=
  let s := ToLower lowerRune testName
  if s = "seal" ∨ s = "seal_unseal" then (sealUnseal, none)
  else if s = "pcr" ∨ s = "pcr_extend" then (pcrExtend, none)
  else if s = "rsa" ∨ s = "rsa_2048_create_sign_verify" then (rsa2048CreateSignVerify, none)
  else if s = "ecc" ∨ s = "ecc_p256_create_sign_verify" then (eccp256CreateSignVerify, none)
  else (unspecified, some (.errorf ("unrecognized test name: " ++ "\x27" ++ testName ++
    "\x27" ++ ". supported tests: " ++ "\x27" ++ fmtStrings allTestNames ++ "\x27")))

/-! ## TPM commands and the session -/

/-- Algorithm and curve identifiers of package tpm2 that the program names. -/
inductive TPMAlgID where
  | TPMAlgKeyedHash | TPMAlgSHA256 | TPMAlgRSA | TPMAlgECC | TPMAlgRSAPSS | TPMAlgECDSA
  | TPMECCNistP256
  deriving DecidableEq, Repr

/-- Go `tpm2.TPMAObject`; a field the program does not set is false. -/
structure TPMAObject where
  fixedTPM : Bool
  fixedParent : Bool
  sensitiveDataOrigin : Bool
  signEncrypt : Bool
  userWithAuth : Bool
  noDA : Bool
  deriving DecidableEq, Repr

/-- Go `tpm2.TPMSSensitiveCreate`: `UserAuth.Buffer` and `Data`. -/
structure TPMSSensitiveCreate where
  userAuth : List Nat
  data : List Nat
  deriving DecidableEq, Repr

/-- The `Parameters` union of `tpm2.TPMTPublic`, in the three shapes used. -/
inductive TPMUPublicParms where
  | unset
  | rsaParms (scheme : TPMAlgID) (hashAlg : TPMAlgID) (keyBits : Nat)
  | eccParms (scheme : TPMAlgID) (hashAlg : TPMAlgID) (curveID : TPMAlgID)
  deriving DecidableEq, Repr

/-- The `Unique` union of `tpm2.TPMTPublic`, in the three shapes used. -/
inductive TPMUPublicID where
  | unset
  | publicKeyRSA (buffer : List Nat)
  | eccPoint (x : List Nat)
  deriving DecidableEq, Repr

/-- Go `tpm2.TPMTPublic`. -/
structure TPMTPublic where
  type : TPMAlgID
  nameAlg : TPMAlgID
  objectAttributes : TPMAObject
  parameters : TPMUPublicParms
  unique : TPMUPublicID
  deriving DecidableEq, Repr

/-- The TPM commands the program issues, with the fields it fills in. -/
inductive Command where
  | Startup (startupType : Nat)
  | CreatePrimary (primaryHandle : Nat) (inSensitive : Option TPMSSensitiveCreate)
      (inPublic : TPMTPublic)
  | FlushContext (flushHandle : Nat)
  | Unseal (handle : Nat) (auth : List Nat) (name : List Nat)
  | PCREvent (pcrHandle : Nat) (eventData : List Nat)
  | GetRandom (bytesRequested : Nat)
  | Sign (handle : Nat) (name : List Nat) (digest : List Nat) (validationTag : Nat)
  | VerifySignature (keyHandle : Nat) (digest : List Nat) (signature : List Nat)
  deriving DecidableEq, Repr

/-- Go `tpm2.CreatePrimaryResponse`, the fields read by the program. -/
structure CreatePrimaryResponse where
  objectHandle : Nat
  name : List Nat
  deriving DecidableEq, Repr

/-- Go `tpm2.UnsealResponse`: `OutData.Buffer`. -/
structure UnsealResponse where
  outData : List Nat
  deriving DecidableEq, Repr

/-- Go `tpm2.GetRandomResponse`: `RandomBytes.Buffer`. -/
structure GetRandomResponse where
  randomBytes : List Nat
  deriving DecidableEq, Repr

/-- Go `tpm2.SignResponse`: the signature, as an uninterpreted byte string. -/
structure SignResponse where
  signature : List Nat
  deriving DecidableEq, Repr

/-- The response type of each command; a command whose response the program
never reads answers with `Unit`. -/
def Command.Rsp : Command → Type
  | .CreatePrimary _ _ _ => CreatePrimaryResponse
  | .Unseal _ _ _ => UnsealResponse
  | .GetRandom _ => GetRandomResponse
  | .Sign _ _ _ _ => SignResponse
  | _ => Unit

/-- A session (Go `transport.TPM`): the answer to a command, given the
commands issued on the session before it, is either the error text of a failed
command or the response of a successful one.  Any behaviour of the device is
such a function. -/
abbrev TPM := (issued : List Command) → (c : Command) → Except String (Command.Rsp c)

/-- Go `cmd.Execute(tpm)`: the command is sent, which extends the list of
issued commands, and its answer is handed back. -/
def Execute (tpm : TPM) (issued : List Command) (c : Command) :
    Except String (Command.Rsp c) × List Command :=
  (tpm issued c, issued ++ [c])

def TPMRHOwner : Nat := 0x40000001

def TPMSUClear : Nat := 0

def TPMSTHashCheck : Nat := 0x8024

/-- Go `[]byte(s)` for an ASCII literal. -/
def bytesOf (s : String) : List Nat :=
  s.data.map Char.toNat

/-- Go `make([]byte, n)`. -/
def zeroBytes (n : Nat) : List Nat :=
  List.replicate n 0

/-! ## The executors -/

/-- The body of the deferred closure of the executors:
`fc := tpm2.FlushContext{FlushHandle: h}; fc.Execute(tpm)`, whose answer is
discarded.  It takes the pending return value and hands it back unchanged. -/
def deferredFlush (tpm : TPM) (flushHandle : Nat) (ret : Option GoError × List Command) :
    Option GoError × List Command :=
  (ret.1, (Execute tpm ret.2 (.FlushContext flushHandle)).2)

/-- The `CreatePrimary` command built by `runSealUnseal`. -/
def sealCreatePrimary : Command :=
  .CreatePrimary TPMRHOwner
    (some ⟨bytesOf "password", bytesOf "secrets"⟩)
    ⟨.TPMAlgKeyedHash, .TPMAlgSHA256, ⟨true, true, false, false, true, true⟩, .unset, .unset⟩

/-- Go `func runSealUnseal(tpm transport.TPM) error`. -/
def runSealUnseal (tpm : TPM) (issued : List Command) : Option GoError × List Command :=
  match Execute tpm issued sealCreatePrimary with
  | (.error err, issued1) => (some (.external err), issued1)
  | (.ok cpRsp, issued1) =>
    deferredFlush tpm cpRsp.objectHandle <|
      match Execute tpm issued1
        (.Unseal cpRsp.objectHandle (bytesOf "password") cpRsp.name) with
      | (.error err, issued2) => (some (.external err), issued2)
      | (.ok unsealRsp, issued2) =>
        if ¬ (unsealRsp.outData = bytesOf "secrets") then
          (some (.errorf "incorrect data unsealed"), issued2)
        else (none, issued2)

/-- Go `func runPCRExtend(tpm transport.TPM) error`. -/
def runPCRExtend (tpm : TPM) (issued : List Command) : Option GoError × List Command :=
  match Execute tpm issued (.PCREvent 0 (bytesOf "measurement")) with
  | (.error err, issued1) => (some (.external err), issued1)
  | (.ok _, issued1) => (none, issued1)

/-- The `CreatePrimary` command built by `runRSA` from the random bytes. -/
def rsaCreatePrimary (randomBytes : List Nat) : Command :=
  .CreatePrimary TPMRHOwner none
    ⟨.TPMAlgRSA, .TPMAlgSHA256, ⟨true, true, true, true, true, true⟩,
      .rsaParms .TPMAlgRSAPSS .TPMAlgSHA256 2048, .publicKeyRSA randomBytes⟩

/-- The `CreatePrimary` command built by `runECC` from the random bytes. -/
def eccCreatePrimary (randomBytes : List Nat) : Command :=
  .CreatePrimary TPMRHOwner none
    ⟨.TPMAlgECC, .TPMAlgSHA256, ⟨true, true, true, true, true, true⟩,
      .eccParms .TPMAlgECDSA .TPMAlgSHA256 .TPMECCNistP256, .eccPoint randomBytes⟩

/-- Go `func runRSA(tpm transport.TPM) error`. -/
def runRSA (tpm : TPM) (issued : List Command) : Option GoError × List Command :=
  match Execute tpm issued (.GetRandom 4) with
  | (.error err, issued1) => (some (.external err), issued1)
  | (.ok randRsp, issued1) =>
    match Execute tpm issued1 (rsaCreatePrimary randRsp.randomBytes) with
    | (.error err, issued2) => (some (.external err), issued2)
    | (.ok cpRsp, issued2) =>
      deferredFlush tpm cpRsp.objectHandle <|
        match Execute tpm issued2
          (.Sign cpRsp.objectHandle cpRsp.name (zeroBytes 32) TPMSTHashCheck) with
        | (.error err, issued3) => (some (.external err), issued3)
        | (.ok signRsp, issued3) =>
          match Execute tpm issued3
            (.VerifySignature cpRsp.objectHandle (zeroBytes 32) signRsp.signature) with
          | (.error err, issued4) => (some (.external err), issued4)
          | (.ok _, issued4) => (none, issued4)

/-- Go `func runECC(tpm transport.TPM) error`. -/
def runECC (tpm : TPM) (issued : List Command) : Option GoError × List Command :=
  match Execute tpm issued (.GetRandom 4) with
  | (.error err, issued1) => (some (.external err), issued1)
  | (.ok randRsp, issued1) =>
    match Execute tpm issued1 (eccCreatePrimary randRsp.randomBytes) with
    | (.error err, issued2) => (some (.external err), issued2)
    | (.ok cpRsp, issued2) =>
      deferredFlush tpm cpRsp.objectHandle <|
        match Execute tpm issued2
          (.Sign cpRsp.objectHandle cpRsp.name (zeroBytes 32) TPMSTHashCheck) with
        | (.error err, issued3) => (some (.external err), issued3)
        | (.ok signRsp, issued3) =>
          match Execute tpm issued3
            (.VerifySignature cpRsp.objectHandle (zeroBytes 32) signRsp.signature) with
          | (.error err, issued4) => (some (.external err), issued4)
          | (.ok _, issued4) => (none, issued4)

/-! ## The benchmark runner and `mainErr` -/

/-- How a Go function call ends: it returns its `error` value, or it panics. -/
inductive Outcome where
  | returned (err : Option GoError)
  | panicked (msg : String)
  deriving DecidableEq, Repr

/-- The values printed by the final `fmt.Printf` of `test.run`: the scenario
name, the total duration and the duration per iteration, in nanoseconds. -/
structure Report where
  name : String
  duration : Int
  durationPerIteration : Int
  deriving DecidableEq, Repr

/-- What a call of `test.run` leaves behind: how it ended, the commands issued
on the session, the ticks of the progress bar and what was printed. -/
structure RunResult where
  outcome : Outcome
  issued : List Command
  bar : Nat
  printed : Option Report
  deriving DecidableEq, Repr

/-- Go `int64` arithmetic keeps the low 64 bits, read as a signed number. -/
def wrapInt64 (x : Int) : Int :=
  (x + 2 ^ 63) % 2 ^ 64 - 2 ^ 63

/-- The `switch t` in the loop body of `test.run`: the executor of the
scenario, or no executor for a selector outside the four scenarios. -/
def executor (t : Int) : Option (TPM → List Command → Option GoError × List Command) :=
  if t = sealUnseal then some runSealUnseal
  else if t = pcrExtend then some runPCRExtend
  else if t = rsa2048CreateSignVerify then some runRSA
  else if t = eccp256CreateSignVerify then some runECC
  else none

set_option linter.unusedVariables false in
/-- The loop `for i := 0; i < count; i++` of `test.run`, from index `i` on.
The first component is the outcome if the function ends inside the loop, and
`none` when the loop runs to its end. -/
def test.run.loop (t : Int) (tpm : TPM) (count : Int) (i : Int) (issued : List Command)
    (bar : Nat) : Option Outcome × List Command × Nat :=
  if h : i < count then
    match executor t with
    | some exec =>
      match exec tpm issued with
      | (some err, issued1) => (some (.returned (some err)), issued1, bar)
      | (none, issued1) => test.run.loop t tpm count (i + 1) issued1 (bar + 1)
    | none => (some (.panicked ("invalid test specified: " ++ test.String t)), issued, bar)
  else (none, issued, bar)
termination_by (count - i).toNat
decreasing_by omega

/-- Go `func (t test) run(tpm transport.TPM, count int) error`.  `issued` is
what the session has seen before the call and `duration` the value of
`time.Now().Sub(start)` after the loop, in nanoseconds. -/
def test.run (t : Int) (tpm : TPM) (issued : List Command) (count : Int) (duration : Int) :
    RunResult :=
  match test.run.loop t tpm count 0 (Execute tpm issued (.Startup TPMSUClear)).2 0 with
  | (some outcome, issued1, bar) => ⟨outcome, issued1, bar, none⟩
  | (none, issued1, bar) =>
    if count = 0 then ⟨.panicked "runtime error: integer divide by zero", issued1, bar, none⟩
    else ⟨.returned none, issued1, bar,
      some ⟨test.String t, duration, wrapInt64 (Int.tdiv duration count)⟩⟩

/-- What a call of `mainErr` leaves behind: how it ended, whether the
simulator connection was requested (`mssim.Open`), whether it was closed
again (the deferred `sim.Close()`), the commands issued and what was printed. -/
structure MainResult where
  outcome : Outcome
  opened : Bool
  closed : Bool
  issued : List Command
  printed : Option Report
  deriving DecidableEq, Repr

/-- Go `func mainErr() error`.  The two flags are `testName` and `testCount`;
`openSim` is the result of `mssim.Open(cfg)`, an error text or the session. -/
def mainErr (lowerRune : Char → Char) (testName : String) (testCount : Int)
    (openSim : Except String TPM) (duration : Int) : MainResult :=
  match selectTest lowerRune testName with
  | (_, some err) => ⟨.returned (some err), false, false, [], none⟩
  | (t, none) =>
    match openSim with
    | .error err =>
      ⟨.returned (some (.errorf ("could not connect to the simulator: " ++ err))), true, false,
        [], none⟩
    | .ok tpm =>
      let r := test.run t tpm [] testCount duration
      ⟨r.outcome, true, true, r.issued, r.printed⟩

/-! ## Vocabulary of the properties -/

/-- The four scenarios that `test.run` dispatches on. -/
def validTest (t : Int) : Prop :=
  t = sealUnseal ∨ t = pcrExtend ∨ t = rsa2048CreateSignVerify ∨ t = eccp256CreateSignVerify

instance (t : Int) : Decidable (validTest t) := by
  unfold validTest; infer_instance

/-- The short alias that `selectTest` accepts for each scenario, as the
`case` lists of its switch pair them with the canonical names. -/
def shortAlias (t : Int) : String :=
  if t = sealUnseal then "seal"
  else if t = pcrExtend then "pcr"
  else if t = rsa2048CreateSignVerify then "rsa"
  else if t = eccp256CreateSignVerify then "ecc"
  else ""

/-- The eight names accepted by the switch of `selectTest`. -/
def acceptedNames : List String :=
  ["seal", "seal_unseal", "pcr", "pcr_extend", "rsa", "rsa_2048_create_sign_verify",
    "ecc", "ecc_p256_create_sign_verify"]

/-- The text of the error of a command, if it failed. -/
def errorOf : {c : Command} → Except String (Command.Rsp c) → Option String
  | _, .error err => some err
  | _, .ok _ => none

/-- Whether a command is the cleanup command `FlushContext`. -/
def isFlush : Command → Bool
  | .FlushContext _ => true
  | _ => false

/-- The handles of the `FlushContext` commands in a list of commands. -/
def flushedHandles : List Command → List Nat
  | [] => []
  | .FlushContext flushHandle :: cs => flushHandle :: flushedHandles cs
  | _ :: cs => flushedHandles cs

/-- The object handle in the response to a command: only the response to a
`CreatePrimary` has one. -/
def handleOf : (c : Command) → Command.Rsp c → Option Nat
  | .CreatePrimary _ _ _, rsp => some rsp.objectHandle
  | _, _ => none

/-- The handle that command `c` creates when it is issued after `issued`: the
object handle of the response if `c` is a `CreatePrimary` that succeeds. -/
def createdHandle (tpm : TPM) (issued : List Command) (c : Command) : Option Nat :=
  match tpm issued c with
  | .ok rsp => handleOf c rsp
  | .error _ => none

/-- The handles created by the commands `cmds`, issued one after the other on
a session that has seen `issued`. -/
def createdHandles (tpm : TPM) : List Command → List Command → List Nat
  | _, [] => []
  | issued, c :: cs =>
    (createdHandle tpm issued c).toList ++ createdHandles tpm (issued ++ [c]) cs

/-- The flush discipline of one executor call on a session that has seen
`issued`: the call only adds commands; if a `CreatePrimary` among them
succeeded with handle `h` then the added commands hold exactly one
`FlushContext`, it is for `h` and it is the last command; if none succeeded
there is no `FlushContext` among them. -/
def FlushDiscipline (exec : TPM → List Command → Option GoError × List Command)
    (tpm : TPM) (issued : List Command) : Prop :=
  ∃ cmds, (exec tpm issued).2 = issued ++ cmds ∧
    ((createdHandles tpm issued cmds = [] ∧ flushedHandles cmds = []) ∨
     ∃ h, createdHandles tpm issued cmds = [h] ∧ flushedHandles cmds = [h] ∧
       cmds.getLast? = some (.FlushContext h))

/-- The first failing step among the commands `cmds`, issued one after the
other on a session that has seen `issued`: the position and the error text of
the first command, cleanup commands apart, whose answer is an error. -/
def firstFailure (tpm : TPM) : List Command → List Command → Option (Nat × String)
  | _, [] => none
  | issued, c :: cs =>
    match (if isFlush c then none else errorOf (tpm issued c)) with
    | some err => some (0, err)
    | none => (firstFailure tpm (issued ++ [c]) cs).map fun p => (p.1 + 1, p.2)

/-- The unsealed bytes in the response to a command: only the response to
an `Unseal` has them. -/
def dataOf : (c : Command) → Command.Rsp c → Option (List Nat)
  | .Unseal _ _ _, rsp => some rsp.outData
  | _, _ => none

/-- The bytes that command `c` unseals when it is issued after `issued`: the
data of the response if `c` is an `Unseal` that succeeds. -/
def unsealedBy (tpm : TPM) (issued : List Command) (c : Command) : Option (List Nat) :=
  match tpm issued c with
  | .ok rsp => dataOf c rsp
  | .error _ => none

/-- The byte strings handed back by the successful `Unseal` commands among
`cmds`, issued one after the other on a session that has seen `issued`. -/
def unsealedData (tpm : TPM) : List Command → List Command → List (List Nat)
  | _, [] => []
  | issued, c :: cs =>
    (unsealedBy tpm issued c).toList ++ unsealedData tpm (issued ++ [c]) cs

/-- The outcome of the payload check, the last step of an iteration, on the
unsealed byte strings of the iteration. -/
def payloadCheck (unsealed : List (List Nat)) : Option GoError :=
  if ∀ d ∈ unsealed, d = bytesOf "secrets" then none
  else some (.errorf "incorrect data unsealed")

/-- The kind of a command, without its parameters. -/
inductive CommandKind where
  | Startup | CreatePrimary | FlushContext | Unseal | PCREvent | GetRandom | Sign
  | VerifySignature
  deriving DecidableEq, Repr

/-- The kind of a command. -/
def Command.kind : Command → CommandKind
  | .Startup _ => .Startup
  | .CreatePrimary _ _ _ => .CreatePrimary
  | .FlushContext _ => .FlushContext
  | .Unseal _ _ _ => .Unseal
  | .PCREvent _ _ => .PCREvent
  | .GetRandom _ => .GetRandom
  | .Sign _ _ _ _ => .Sign
  | .VerifySignature _ _ _ => .VerifySignature

/-- The kinds of the commands of a list, cleanup commands left out. -/
def stepKinds (cmds : List Command) : List CommandKind :=
  (cmds.filter fun c => !isFlush c).map Command.kind

/-- The first-failure rule of one executor call with the linear pipeline
`pipeline`, on a session that has seen `issued`: the call only adds commands;
cleanup apart they are the steps of the pipeline, in order, up to some step;
if one of them fails, the call returns the error of the first such command as
it is, and every command after that one is cleanup; if none fails, every step
of the pipeline has been issued and the call returns the outcome of the
payload check. -/
def FirstFailureRule (exec : TPM → List Command → Option GoError × List Command)
    (pipeline : List CommandKind) (tpm : TPM) (issued : List Command) : Prop :=
  ∃ cmds, (exec tpm issued).2 = issued ++ cmds ∧ stepKinds cmds <+: pipeline ∧
    match firstFailure tpm issued cmds with
    | some (k, err) =>
      (exec tpm issued).1 = some (.external err) ∧ ∀ c ∈ cmds.drop (k + 1), isFlush c = true
    | none =>
      stepKinds cmds = pipeline ∧
        (exec tpm issued).1 = payloadCheck (unsealedData tpm issued cmds)

/-- Two sessions that give the same answers to every command that is not a
cleanup command. -/
def AgreeUpToFlush (tpm tpm2 : TPM) : Prop :=
  ∀ issued c, isFlush c = false → tpm2 issued c = tpm issued c

/-- The commands a session has seen after `n` consecutive calls of an executor,
starting from a session that has seen `issued`. -/
def iterate (exec : TPM → List Command → Option GoError × List Command) (tpm : TPM) :
    Nat → List Command → List Command
  | 0, issued => issued
  | n + 1, issued => iterate exec tpm n (exec tpm issued).2

/-- A working session: every command succeeds, and every `Unseal` gives back
the sealed payload. -/
def Working (tpm : TPM) : Prop :=
  (∀ issued c, errorOf (tpm issued c) = none) ∧
    ∀ issued c d, unsealedBy tpm issued c = some d → d = bytesOf "secrets"

/-- The transient handles alive after the commands `cmds`, issued one after
the other on a session that has seen `issued` and holds the handles `live`: a
successful `CreatePrimary` adds the handle it returns, a successful
`FlushContext` removes one occurrence of its handle. -/
def liveHandles (tpm : TPM) : List Command → List Command → List Nat → List Nat
  | _, [], live => live
  | issued, c :: cs, live =>
    liveHandles tpm (issued ++ [c]) cs
      (match c with
        | .FlushContext flushHandle =>
          if errorOf (tpm issued (.FlushContext flushHandle)) = none then live.erase flushHandle
          else live
        | c => live ++ (createdHandle tpm issued c).toList)

/-- One iteration of scenario `t` that ran the commands `cmds` on a session
that had seen `issued` is hermetic: for `pcrExtend` the commands are the one
`PCREvent` on PCR 0 with the data "measurement"; for the other scenarios one
handle is created, the one `FlushContext` is for that handle and is the last
command. -/
def Hermetic (t : Int) (tpm : TPM) (issued cmds : List Command) : Prop :=
  if t = pcrExtend then cmds = [.PCREvent 0 (bytesOf "measurement")]
  else ∃ h, createdHandles tpm issued cmds = [h] ∧ flushedHandles cmds = [h] ∧
    cmds.getLast? = some (.FlushContext h)

/-! ## Sample sessions -/

/-- A working session: every command succeeds, `CreatePrimary` hands out the
first transient handle and `Unseal` gives back the sealed payload. -/
def workingTPM : TPM := fun _ c =>
  match c with
  | .Startup _ => .ok ()
  | .CreatePrimary _ _ _ => .ok ⟨0x80000000, [0, 11]⟩
  | .FlushContext _ => .ok ()
  | .Unseal _ _ _ => .ok ⟨bytesOf "secrets"⟩
  | .PCREvent _ _ => .ok ()
  | .GetRandom n => .ok ⟨List.replicate n 7⟩
  | .Sign _ _ _ _ => .ok ⟨[1, 2, 3]⟩
  | .VerifySignature _ _ _ => .ok ()

/-- A session that fails one command: the one issued when `k` commands have
been issued before it; everything else is answered by `workingTPM`. -/
def failingAt (k : Nat) : TPM := fun issued c =>
  if issued.length = k then .error "TPM_RC_FAILURE" else workingTPM issued c

/-- A session that answers `Unseal` with the given bytes and is `workingTPM`
for the other commands. -/
def unsealingTPM (data : List Nat) : TPM := fun issued c =>
  match c with
  | .Unseal _ _ _ => .ok ⟨data⟩
  | c => workingTPM issued c

/-- The session `base` with its cleanup broken: `FlushContext` fails, and
every other command is answered as `base` answers it. -/
def flushFailing (base : TPM) : TPM := fun issued c =>
  match c with
  | .FlushContext _ => .error "TPM_RC_HANDLE"
  | c => base issued c

/-! ## Scenario catalog: theorems -/

theorem ToLower_canonical (lowerRune : Char → Char) (t : Int) (ht : validTest t) :
    ToLower lowerRune (test.String t) = test.String t := by
  rcases ht with h | h | h | h <;> subst h <;> rfl

/-- C1: for each of the four scenarios, a name whose lower-cased form is the
short alias or the canonical name of the scenario is resolved by `selectTest`
to that scenario with a nil error, and so is the canonical name itself. -/
theorem selectTest_accepts (lowerRune : Char → Char) (t : Int) (s : String)
    (ht : validTest t)
    (hs : ToLower lowerRune s = shortAlias t ∨ ToLower lowerRune s = test.String t) :
    selectTest lowerRune s = (t, none) ∧ selectTest lowerRune (test.String t) = (t, none) := by
  have key : ∀ s', (ToLower lowerRune s' = shortAlias t ∨ ToLower lowerRune s' = test.String t) →
      selectTest lowerRune s' = (t, none) := by
    intro s' hs'
    unfold selectTest
    rcases ht with h | h | h | h <;> subst h <;>
      rcases hs' with h' | h' <;>
      simp [h', shortAlias, test.String, sealUnseal, pcrExtend, rsa2048CreateSignVerify,
        eccp256CreateSignVerify]
  exact ⟨key s hs, key _ (Or.inr (ToLower_canonical lowerRune t ht))⟩

theorem selectTest_accepts_witness :
    selectTest id "Seal" = (sealUnseal, none) ∧
      selectTest id (test.String sealUnseal) = (sealUnseal, none) :=
  selectTest_accepts id sealUnseal "Seal" (by decide) (by decide)

theorem allTestNames_eq :
    allTestNames = ["seal_unseal", "pcr_extend", "rsa_2048_create_sign_verify",
      "ecc_p256_create_sign_verify"] := by
  unfold allTestNames
  rw [allTestNames.loop, dif_pos (by decide)]
  rw [allTestNames.loop, dif_pos (by decide)]
  rw [allTestNames.loop, dif_pos (by decide)]
  rw [allTestNames.loop, dif_pos (by decide)]
  rw [allTestNames.loop, dif_neg (by decide)]
  decide

/-- C2: a name whose lower-cased form is none of the eight accepted names is
answered with the selector `unspecified` and a non-nil error whose message
quotes the name and then lists the four canonical names, once each and in
canonical order, which is the list that `allTestNames` returns. -/
theorem selectTest_rejects (lowerRune : Char → Char) (s : String)
    (hs : ToLower lowerRune s ∉ acceptedNames) :
    selectTest lowerRune s = (unspecified, some (.errorf ("unrecognized test name: " ++ "\x27"
      ++ s ++ "\x27" ++ ". supported tests: " ++ "\x27" ++
      "[seal_unseal pcr_extend rsa_2048_create_sign_verify ecc_p256_create_sign_verify]" ++
      "\x27"))) ∧
    allTestNames = ["seal_unseal", "pcr_extend", "rsa_2048_create_sign_verify",
      "ecc_p256_create_sign_verify"] ∧
    ¬ validTest (selectTest lowerRune s).1 := by
  have hfmt : fmtStrings allTestNames =
      "[seal_unseal pcr_extend rsa_2048_create_sign_verify ecc_p256_create_sign_verify]" := by
    rw [allTestNames_eq]; decide
  simp only [acceptedNames, List.mem_cons, List.mem_singleton, List.not_mem_nil, or_false,
    not_or] at hs
  obtain ⟨h1, h2, h3, h4, h5, h6, h7, h8⟩ := hs
  have hsel : selectTest lowerRune s = (unspecified, some (.errorf ("unrecognized test name: "
      ++ "\x27" ++ s ++ "\x27" ++ ". supported tests: " ++ "\x27" ++
      "[seal_unseal pcr_extend rsa_2048_create_sign_verify ecc_p256_create_sign_verify]" ++
      "\x27"))) := by
    unfold selectTest
    simp only [h1, h2, h3, h4, h5, h6, h7, h8, or_self, if_false, hfmt]
  refine ⟨hsel, allTestNames_eq, ?_⟩
  rw [hsel]
  show ¬ validTest unspecified
  decide

theorem selectTest_rejects_witness :
    selectTest id "sealunseal" = (unspecified, some (.errorf ("unrecognized test name: " ++ "\x27"
      ++ "sealunseal" ++ "\x27" ++ ". supported tests: " ++ "\x27" ++
      "[seal_unseal pcr_extend rsa_2048_create_sign_verify ecc_p256_create_sign_verify]" ++
      "\x27"))) ∧
    allTestNames = ["seal_unseal", "pcr_extend", "rsa_2048_create_sign_verify",
      "ecc_p256_create_sign_verify"] ∧
    ¬ validTest (selectTest id "sealunseal").1 :=
  selectTest_rejects id "sealunseal" (by decide)

/-! ## Executors: the return value and the commands, path by path -/

theorem runSealUnseal_createPrimary_error (tpm : TPM) (issued : List Command) (err : String)
    (hcp : tpm issued sealCreatePrimary = .error err) :
    runSealUnseal tpm issued = (some (.external err), issued ++ [sealCreatePrimary]) := by
  simp only [runSealUnseal, Execute, hcp]

theorem runSealUnseal_unseal_error (tpm : TPM) (issued : List Command)
    (cpRsp : CreatePrimaryResponse) (err : String)
    (hcp : tpm issued sealCreatePrimary = .ok cpRsp)
    (hun : tpm (issued ++ [sealCreatePrimary])
      (.Unseal cpRsp.objectHandle (bytesOf "password") cpRsp.name) = .error err) :
    runSealUnseal tpm issued = (some (.external err), issued ++ [sealCreatePrimary,
      .Unseal cpRsp.objectHandle (bytesOf "password") cpRsp.name,
      .FlushContext cpRsp.objectHandle]) := by
  simp [runSealUnseal, Execute, deferredFlush, hcp, hun]

theorem runSealUnseal_unseal_ok (tpm : TPM) (issued : List Command)
    (cpRsp : CreatePrimaryResponse) (unsealRsp : UnsealResponse)
    (hcp : tpm issued sealCreatePrimary = .ok cpRsp)
    (hun : tpm (issued ++ [sealCreatePrimary])
      (.Unseal cpRsp.objectHandle (bytesOf "password") cpRsp.name) = .ok unsealRsp) :
    runSealUnseal tpm issued =
      (if unsealRsp.outData = bytesOf "secrets" then none
        else some (.errorf "incorrect data unsealed"),
       issued ++ [sealCreatePrimary,
        .Unseal cpRsp.objectHandle (bytesOf "password") cpRsp.name,
        .FlushContext cpRsp.objectHandle]) := by
  simp only [runSealUnseal, Execute, deferredFlush, hcp, hun]
  by_cases h : unsealRsp.outData = bytesOf "secrets" <;> simp [h]

theorem runPCRExtend_error (tpm : TPM) (issued : List Command) (err : String)
    (hev : tpm issued (.PCREvent 0 (bytesOf "measurement")) = .error err) :
    runPCRExtend tpm issued =
      (some (.external err), issued ++ [.PCREvent 0 (bytesOf "measurement")]) := by
  simp only [runPCRExtend, Execute, hev]

theorem runPCRExtend_ok (tpm : TPM) (issued : List Command)
    (hev : tpm issued (.PCREvent 0 (bytesOf "measurement")) = .ok ()) :
    runPCRExtend tpm issued = (none, issued ++ [.PCREvent 0 (bytesOf "measurement")]) := by
  simp only [runPCRExtend, Execute, hev]

theorem runRSA_getRandom_error (tpm : TPM) (issued : List Command) (err : String)
    (hgr : tpm issued (.GetRandom 4) = .error err) :
    runRSA tpm issued = (some (.external err), issued ++ [.GetRandom 4]) := by
  simp only [runRSA, Execute, hgr]

theorem runRSA_createPrimary_error (tpm : TPM) (issued : List Command)
    (randRsp : GetRandomResponse) (err : String)
    (hgr : tpm issued (.GetRandom 4) = .ok randRsp)
    (hcp : tpm (issued ++ [.GetRandom 4]) (rsaCreatePrimary randRsp.randomBytes) = .error err) :
    runRSA tpm issued = (some (.external err),
      issued ++ [.GetRandom 4, rsaCreatePrimary randRsp.randomBytes]) := by
  simp [runRSA, Execute, hgr, hcp]

theorem runRSA_sign_error (tpm : TPM) (issued : List Command)
    (randRsp : GetRandomResponse) (cpRsp : CreatePrimaryResponse) (err : String)
    (hgr : tpm issued (.GetRandom 4) = .ok randRsp)
    (hcp : tpm (issued ++ [.GetRandom 4]) (rsaCreatePrimary randRsp.randomBytes) = .ok cpRsp)
    (hsg : tpm (issued ++ [.GetRandom 4, rsaCreatePrimary randRsp.randomBytes])
      (.Sign cpRsp.objectHandle cpRsp.name (zeroBytes 32) TPMSTHashCheck) = .error err) :
    runRSA tpm issued = (some (.external err),
      issued ++ [.GetRandom 4, rsaCreatePrimary randRsp.randomBytes,
        .Sign cpRsp.objectHandle cpRsp.name (zeroBytes 32) TPMSTHashCheck,
        .FlushContext cpRsp.objectHandle]) := by
  simp [runRSA, Execute, deferredFlush, hgr, hcp, hsg]

theorem runRSA_verify_error (tpm : TPM) (issued : List Command)
    (randRsp : GetRandomResponse) (cpRsp : CreatePrimaryResponse) (signRsp : SignResponse)
    (err : String)
    (hgr : tpm issued (.GetRandom 4) = .ok randRsp)
    (hcp : tpm (issued ++ [.GetRandom 4]) (rsaCreatePrimary randRsp.randomBytes) = .ok cpRsp)
    (hsg : tpm (issued ++ [.GetRandom 4, rsaCreatePrimary randRsp.randomBytes])
      (.Sign cpRsp.objectHandle cpRsp.name (zeroBytes 32) TPMSTHashCheck) = .ok signRsp)
    (hvf : tpm (issued ++ [.GetRandom 4, rsaCreatePrimary randRsp.randomBytes,
        .Sign cpRsp.objectHandle cpRsp.name (zeroBytes 32) TPMSTHashCheck])
      (.VerifySignature cpRsp.objectHandle (zeroBytes 32) signRsp.signature) = .error err) :
    runRSA tpm issued = (some (.external err),
      issued ++ [.GetRandom 4, rsaCreatePrimary randRsp.randomBytes,
        .Sign cpRsp.objectHandle cpRsp.name (zeroBytes 32) TPMSTHashCheck,
        .VerifySignature cpRsp.objectHandle (zeroBytes 32) signRsp.signature,
        .FlushContext cpRsp.objectHandle]) := by
  simp [runRSA, Execute, deferredFlush, hgr, hcp, hsg, hvf]

theorem runRSA_verify_ok (tpm : TPM) (issued : List Command)
    (randRsp : GetRandomResponse) (cpRsp : CreatePrimaryResponse) (signRsp : SignResponse)
    (hgr : tpm issued (.GetRandom 4) = .ok randRsp)
    (hcp : tpm (issued ++ [.GetRandom 4]) (rsaCreatePrimary randRsp.randomBytes) = .ok cpRsp)
    (hsg : tpm (issued ++ [.GetRandom 4, rsaCreatePrimary randRsp.randomBytes])
      (.Sign cpRsp.objectHandle cpRsp.name (zeroBytes 32) TPMSTHashCheck) = .ok signRsp)
    (hvf : tpm (issued ++ [.GetRandom 4, rsaCreatePrimary randRsp.randomBytes,
        .Sign cpRsp.objectHandle cpRsp.name (zeroBytes 32) TPMSTHashCheck])
      (.VerifySignature cpRsp.objectHandle (zeroBytes 32) signRsp.signature) = .ok ()) :
    runRSA tpm issued = (none,
      issued ++ [.GetRandom 4, rsaCreatePrimary randRsp.randomBytes,
        .Sign cpRsp.objectHandle cpRsp.name (zeroBytes 32) TPMSTHashCheck,
        .VerifySignature cpRsp.objectHandle (zeroBytes 32) signRsp.signature,
        .FlushContext cpRsp.objectHandle]) := by
  simp [runRSA, Execute, deferredFlush, hgr, hcp, hsg, hvf]

theorem runECC_getRandom_error (tpm : TPM) (issued : List Command) (err : String)
    (hgr : tpm issued (.GetRandom 4) = .error err) :
    runECC tpm issued = (some (.external err), issued ++ [.GetRandom 4]) := by
  simp only [runECC, Execute, hgr]

theorem runECC_createPrimary_error (tpm : TPM) (issued : List Command)
    (randRsp : GetRandomResponse) (err : String)
    (hgr : tpm issued (.GetRandom 4) = .ok randRsp)
    (hcp : tpm (issued ++ [.GetRandom 4]) (eccCreatePrimary randRsp.randomBytes) = .error err) :
    runECC tpm issued = (some (.external err),
      issued ++ [.GetRandom 4, eccCreatePrimary randRsp.randomBytes]) := by
  simp [runECC, Execute, hgr, hcp]

theorem runECC_sign_error (tpm : TPM) (issued : List Command)
    (randRsp : GetRandomResponse) (cpRsp : CreatePrimaryResponse) (err : String)
    (hgr : tpm issued (.GetRandom 4) = .ok randRsp)
    (hcp : tpm (issued ++ [.GetRandom 4]) (eccCreatePrimary randRsp.randomBytes) = .ok cpRsp)
    (hsg : tpm (issued ++ [.GetRandom 4, eccCreatePrimary randRsp.randomBytes])
      (.Sign cpRsp.objectHandle cpRsp.name (zeroBytes 32) TPMSTHashCheck) = .error err) :
    runECC tpm issued = (some (.external err),
      issued ++ [.GetRandom 4, eccCreatePrimary randRsp.randomBytes,
        .Sign cpRsp.objectHandle cpRsp.name (zeroBytes 32) TPMSTHashCheck,
        .FlushContext cpRsp.objectHandle]) := by
  simp [runECC, Execute, deferredFlush, hgr, hcp, hsg]

theorem runECC_verify_error (tpm : TPM) (issued : List Command)
    (randRsp : GetRandomResponse) (cpRsp : CreatePrimaryResponse) (signRsp : SignResponse)
    (err : String)
    (hgr : tpm issued (.GetRandom 4) = .ok randRsp)
    (hcp : tpm (issued ++ [.GetRandom 4]) (eccCreatePrimary randRsp.randomBytes) = .ok cpRsp)
    (hsg : tpm (issued ++ [.GetRandom 4, eccCreatePrimary randRsp.randomBytes])
      (.Sign cpRsp.objectHandle cpRsp.name (zeroBytes 32) TPMSTHashCheck) = .ok signRsp)
    (hvf : tpm (issued ++ [.GetRandom 4, eccCreatePrimary randRsp.randomBytes,
        .Sign cpRsp.objectHandle cpRsp.name (zeroBytes 32) TPMSTHashCheck])
      (.VerifySignature cpRsp.objectHandle (zeroBytes 32) signRsp.signature) = .error err) :
    runECC tpm issued = (some (.external err),
      issued ++ [.GetRandom 4, eccCreatePrimary randRsp.randomBytes,
        .Sign cpRsp.objectHandle cpRsp.name (zeroBytes 32) TPMSTHashCheck,
        .VerifySignature cpRsp.objectHandle (zeroBytes 32) signRsp.signature,
        .FlushContext cpRsp.objectHandle]) := by
  simp [runECC, Execute, deferredFlush, hgr, hcp, hsg, hvf]

theorem runECC_verify_ok (tpm : TPM) (issued : List Command)
    (randRsp : GetRandomResponse) (cpRsp : CreatePrimaryResponse) (signRsp : SignResponse)
    (hgr : tpm issued (.GetRandom 4) = .ok randRsp)
    (hcp : tpm (issued ++ [.GetRandom 4]) (eccCreatePrimary randRsp.randomBytes) = .ok cpRsp)
    (hsg : tpm (issued ++ [.GetRandom 4, eccCreatePrimary randRsp.randomBytes])
      (.Sign cpRsp.objectHandle cpRsp.name (zeroBytes 32) TPMSTHashCheck) = .ok signRsp)
    (hvf : tpm (issued ++ [.GetRandom 4, eccCreatePrimary randRsp.randomBytes,
        .Sign cpRsp.objectHandle cpRsp.name (zeroBytes 32) TPMSTHashCheck])
      (.VerifySignature cpRsp.objectHandle (zeroBytes 32) signRsp.signature) = .ok ()) :
    runECC tpm issued = (none,
      issued ++ [.GetRandom 4, eccCreatePrimary randRsp.randomBytes,
        .Sign cpRsp.objectHandle cpRsp.name (zeroBytes 32) TPMSTHashCheck,
        .VerifySignature cpRsp.objectHandle (zeroBytes 32) signRsp.signature,
        .FlushContext cpRsp.objectHandle]) := by
  simp [runECC, Execute, deferredFlush, hgr, hcp, hsg, hvf]

/-! ## Reading a list of commands -/

@[simp] theorem isFlush_FlushContext (a : Nat) : isFlush (.FlushContext a) = true := rfl

@[simp] theorem isFlush_Startup (a : Nat) : isFlush (.Startup a) = false := rfl

@[simp] theorem isFlush_Unseal (a : Nat) (b c : List Nat) : isFlush (.Unseal a b c) = false := rfl

@[simp] theorem isFlush_PCREvent (a : Nat) (b : List Nat) : isFlush (.PCREvent a b) = false := rfl

@[simp] theorem isFlush_GetRandom (a : Nat) : isFlush (.GetRandom a) = false := rfl

@[simp] theorem isFlush_Sign (a : Nat) (b c : List Nat) (d : Nat) :
    isFlush (.Sign a b c d) = false := rfl

@[simp] theorem isFlush_VerifySignature (a : Nat) (b c : List Nat) :
    isFlush (.VerifySignature a b c) = false := rfl

@[simp] theorem isFlush_sealCreatePrimary : isFlush sealCreatePrimary = false := rfl

@[simp] theorem isFlush_rsaCreatePrimary (b : List Nat) : isFlush (rsaCreatePrimary b) = false :=
  rfl

@[simp] theorem isFlush_eccCreatePrimary (b : List Nat) : isFlush (eccCreatePrimary b) = false :=
  rfl

theorem createdHandle_error (tpm : TPM) (issued : List Command) (c : Command) (err : String)
    (h : tpm issued c = .error err) : createdHandle tpm issued c = none := by
  simp only [createdHandle, h]

theorem createdHandle_ok (tpm : TPM) (issued : List Command) (c : Command) (rsp : Command.Rsp c)
    (h : tpm issued c = .ok rsp) : createdHandle tpm issued c = handleOf c rsp := by
  simp only [createdHandle, h]

theorem createdHandle_of_handleOf_none (tpm : TPM) (issued : List Command) (c : Command)
    (h : ∀ rsp, handleOf c rsp = none) : createdHandle tpm issued c = none := by
  unfold createdHandle
  split
  · exact h _
  · rfl

@[simp] theorem createdHandle_Unseal (tpm : TPM) (issued : List Command) (a : Nat)
    (b c : List Nat) : createdHandle tpm issued (.Unseal a b c) = none :=
  createdHandle_of_handleOf_none tpm issued _ (fun _ => rfl)

@[simp] theorem createdHandle_FlushContext (tpm : TPM) (issued : List Command) (a : Nat) :
    createdHandle tpm issued (.FlushContext a) = none :=
  createdHandle_of_handleOf_none tpm issued _ (fun _ => rfl)

@[simp] theorem createdHandle_GetRandom (tpm : TPM) (issued : List Command) (a : Nat) :
    createdHandle tpm issued (.GetRandom a) = none :=
  createdHandle_of_handleOf_none tpm issued _ (fun _ => rfl)

@[simp] theorem createdHandle_Sign (tpm : TPM) (issued : List Command) (a : Nat)
    (b c : List Nat) (d : Nat) : createdHandle tpm issued (.Sign a b c d) = none :=
  createdHandle_of_handleOf_none tpm issued _ (fun _ => rfl)

@[simp] theorem createdHandle_VerifySignature (tpm : TPM) (issued : List Command) (a : Nat)
    (b c : List Nat) : createdHandle tpm issued (.VerifySignature a b c) = none :=
  createdHandle_of_handleOf_none tpm issued _ (fun _ => rfl)

@[simp] theorem createdHandle_PCREvent (tpm : TPM) (issued : List Command) (a : Nat)
    (b : List Nat) : createdHandle tpm issued (.PCREvent a b) = none :=
  createdHandle_of_handleOf_none tpm issued _ (fun _ => rfl)

@[simp] theorem createdHandle_Startup (tpm : TPM) (issued : List Command) (a : Nat) :
    createdHandle tpm issued (.Startup a) = none :=
  createdHandle_of_handleOf_none tpm issued _ (fun _ => rfl)

theorem unsealedBy_of_dataOf_none (tpm : TPM) (issued : List Command) (c : Command)
    (h : ∀ rsp, dataOf c rsp = none) : unsealedBy tpm issued c = none := by
  unfold unsealedBy
  split
  · exact h _
  · rfl

theorem unsealedBy_ok (tpm : TPM) (issued : List Command) (c : Command) (rsp : Command.Rsp c)
    (h : tpm issued c = .ok rsp) : unsealedBy tpm issued c = dataOf c rsp := by
  simp only [unsealedBy, h]

theorem unsealedBy_error (tpm : TPM) (issued : List Command) (c : Command) (err : String)
    (h : tpm issued c = .error err) : unsealedBy tpm issued c = none := by
  simp only [unsealedBy, h]

@[simp] theorem unsealedBy_sealCreatePrimary (tpm : TPM) (issued : List Command) :
    unsealedBy tpm issued sealCreatePrimary = none :=
  unsealedBy_of_dataOf_none tpm issued _ (fun _ => rfl)

@[simp] theorem unsealedBy_rsaCreatePrimary (tpm : TPM) (issued : List Command) (b : List Nat) :
    unsealedBy tpm issued (rsaCreatePrimary b) = none :=
  unsealedBy_of_dataOf_none tpm issued _ (fun _ => rfl)

@[simp] theorem unsealedBy_eccCreatePrimary (tpm : TPM) (issued : List Command) (b : List Nat) :
    unsealedBy tpm issued (eccCreatePrimary b) = none :=
  unsealedBy_of_dataOf_none tpm issued _ (fun _ => rfl)

@[simp] theorem unsealedBy_FlushContext (tpm : TPM) (issued : List Command) (a : Nat) :
    unsealedBy tpm issued (.FlushContext a) = none :=
  unsealedBy_of_dataOf_none tpm issued _ (fun _ => rfl)

@[simp] theorem unsealedBy_GetRandom (tpm : TPM) (issued : List Command) (a : Nat) :
    unsealedBy tpm issued (.GetRandom a) = none :=
  unsealedBy_of_dataOf_none tpm issued _ (fun _ => rfl)

@[simp] theorem unsealedBy_Sign (tpm : TPM) (issued : List Command) (a : Nat)
    (b c : List Nat) (d : Nat) : unsealedBy tpm issued (.Sign a b c d) = none :=
  unsealedBy_of_dataOf_none tpm issued _ (fun _ => rfl)

@[simp] theorem unsealedBy_VerifySignature (tpm : TPM) (issued : List Command) (a : Nat)
    (b c : List Nat) : unsealedBy tpm issued (.VerifySignature a b c) = none :=
  unsealedBy_of_dataOf_none tpm issued _ (fun _ => rfl)

@[simp] theorem unsealedBy_PCREvent (tpm : TPM) (issued : List Command) (a : Nat)
    (b : List Nat) : unsealedBy tpm issued (.PCREvent a b) = none :=
  unsealedBy_of_dataOf_none tpm issued _ (fun _ => rfl)

@[simp] theorem unsealedBy_Startup (tpm : TPM) (issued : List Command) (a : Nat) :
    unsealedBy tpm issued (.Startup a) = none :=
  unsealedBy_of_dataOf_none tpm issued _ (fun _ => rfl)

theorem stepKinds_nil : stepKinds [] = [] := rfl

theorem stepKinds_cons (c : Command) (cs : List Command) :
    stepKinds (c :: cs) = if isFlush c then stepKinds cs else c.kind :: stepKinds cs := by
  cases h : isFlush c <;> simp [stepKinds, List.filter, h]

@[simp] theorem kind_Startup (a : Nat) : (Command.Startup a).kind = .Startup := rfl

@[simp] theorem kind_FlushContext (a : Nat) : (Command.FlushContext a).kind = .FlushContext :=
  rfl

@[simp] theorem kind_Unseal (a : Nat) (b c : List Nat) :
    (Command.Unseal a b c).kind = .Unseal := rfl

@[simp] theorem kind_PCREvent (a : Nat) (b : List Nat) :
    (Command.PCREvent a b).kind = .PCREvent := rfl

@[simp] theorem kind_GetRandom (a : Nat) : (Command.GetRandom a).kind = .GetRandom := rfl

@[simp] theorem kind_Sign (a : Nat) (b c : List Nat) (d : Nat) :
    (Command.Sign a b c d).kind = .Sign := rfl

@[simp] theorem kind_VerifySignature (a : Nat) (b c : List Nat) :
    (Command.VerifySignature a b c).kind = .VerifySignature := rfl

@[simp] theorem kind_sealCreatePrimary : sealCreatePrimary.kind = .CreatePrimary := rfl

@[simp] theorem kind_rsaCreatePrimary (b : List Nat) :
    (rsaCreatePrimary b).kind = .CreatePrimary := rfl

@[simp] theorem kind_eccCreatePrimary (b : List Nat) :
    (eccCreatePrimary b).kind = .CreatePrimary := rfl

@[simp] theorem payloadCheck_nil : payloadCheck [] = none := by
  simp [payloadCheck]

/-! ## Executors: object lifecycle -/

theorem runSealUnseal_flushDiscipline (tpm : TPM) (issued : List Command) :
    FlushDiscipline runSealUnseal tpm issued := by
  unfold FlushDiscipline
  cases hcp : tpm issued sealCreatePrimary with
  | error err =>
    rw [runSealUnseal_createPrimary_error tpm issued err hcp]
    refine ⟨_, rfl, Or.inl ⟨?_, rfl⟩⟩
    simp [createdHandles, createdHandle_error tpm issued _ err hcp]
  | ok cpRsp =>
    have hx : ∃ r, runSealUnseal tpm issued = (r, issued ++ [sealCreatePrimary,
        .Unseal cpRsp.objectHandle (bytesOf "password") cpRsp.name,
        .FlushContext cpRsp.objectHandle]) := by
      cases hun : tpm (issued ++ [sealCreatePrimary])
          (.Unseal cpRsp.objectHandle (bytesOf "password") cpRsp.name) with
      | error err => exact ⟨_, runSealUnseal_unseal_error tpm issued cpRsp err hcp hun⟩
      | ok unsealRsp => exact ⟨_, runSealUnseal_unseal_ok tpm issued cpRsp unsealRsp hcp hun⟩
    obtain ⟨r, hr⟩ := hx
    rw [hr]
    refine ⟨_, rfl, Or.inr ⟨cpRsp.objectHandle, ?_, rfl, rfl⟩⟩
    simp [createdHandles, createdHandle_ok tpm issued _ cpRsp hcp]
    rfl

theorem runRSA_flushDiscipline (tpm : TPM) (issued : List Command) :
    FlushDiscipline runRSA tpm issued := by
  unfold FlushDiscipline
  cases hgr : tpm issued (.GetRandom 4) with
  | error err =>
    rw [runRSA_getRandom_error tpm issued err hgr]
    exact ⟨_, rfl, Or.inl ⟨by simp [createdHandles], rfl⟩⟩
  | ok randRsp =>
    cases hcp : tpm (issued ++ [.GetRandom 4]) (rsaCreatePrimary randRsp.randomBytes) with
    | error err =>
      rw [runRSA_createPrimary_error tpm issued randRsp err hgr hcp]
      refine ⟨_, rfl, Or.inl ⟨?_, rfl⟩⟩
      simp [createdHandles, createdHandle_error tpm _ _ err hcp]
    | ok cpRsp =>
      have hc : createdHandle tpm (issued ++ [.GetRandom 4])
          (rsaCreatePrimary randRsp.randomBytes) = some cpRsp.objectHandle :=
        createdHandle_ok tpm _ _ cpRsp hcp
      cases hsg : tpm (issued ++ [.GetRandom 4, rsaCreatePrimary randRsp.randomBytes])
          (.Sign cpRsp.objectHandle cpRsp.name (zeroBytes 32) TPMSTHashCheck) with
      | error err =>
        rw [runRSA_sign_error tpm issued randRsp cpRsp err hgr hcp hsg]
        refine ⟨_, rfl, Or.inr ⟨cpRsp.objectHandle, ?_, rfl, rfl⟩⟩
        simp [createdHandles, hc]
      | ok signRsp =>
        have hx : ∃ r, runRSA tpm issued = (r,
            issued ++ [.GetRandom 4, rsaCreatePrimary randRsp.randomBytes,
              .Sign cpRsp.objectHandle cpRsp.name (zeroBytes 32) TPMSTHashCheck,
              .VerifySignature cpRsp.objectHandle (zeroBytes 32) signRsp.signature,
              .FlushContext cpRsp.objectHandle]) := by
          cases hvf : tpm (issued ++ [.GetRandom 4, rsaCreatePrimary randRsp.randomBytes,
              .Sign cpRsp.objectHandle cpRsp.name (zeroBytes 32) TPMSTHashCheck])
              (.VerifySignature cpRsp.objectHandle (zeroBytes 32) signRsp.signature) with
          | error err =>
            exact ⟨_, runRSA_verify_error tpm issued randRsp cpRsp signRsp err hgr hcp hsg hvf⟩
          | ok u =>
            exact ⟨_, runRSA_verify_ok tpm issued randRsp cpRsp signRsp hgr hcp hsg hvf⟩
        obtain ⟨r, hr⟩ := hx
        rw [hr]
        refine ⟨_, rfl, Or.inr ⟨cpRsp.objectHandle, ?_, rfl, rfl⟩⟩
        simp [createdHandles, hc]

theorem runECC_flushDiscipline (tpm : TPM) (issued : List Command) :
    FlushDiscipline runECC tpm issued := by
  unfold FlushDiscipline
  cases hgr : tpm issued (.GetRandom 4) with
  | error err =>
    rw [runECC_getRandom_error tpm issued err hgr]
    exact ⟨_, rfl, Or.inl ⟨by simp [createdHandles], rfl⟩⟩
  | ok randRsp =>
    cases hcp : tpm (issued ++ [.GetRandom 4]) (eccCreatePrimary randRsp.randomBytes) with
    | error err =>
      rw [runECC_createPrimary_error tpm issued randRsp err hgr hcp]
      refine ⟨_, rfl, Or.inl ⟨?_, rfl⟩⟩
      simp [createdHandles, createdHandle_error tpm _ _ err hcp]
    | ok cpRsp =>
      have hc : createdHandle tpm (issued ++ [.GetRandom 4])
          (eccCreatePrimary randRsp.randomBytes) = some cpRsp.objectHandle :=
        createdHandle_ok tpm _ _ cpRsp hcp
      cases hsg : tpm (issued ++ [.GetRandom 4, eccCreatePrimary randRsp.randomBytes])
          (.Sign cpRsp.objectHandle cpRsp.name (zeroBytes 32) TPMSTHashCheck) with
      | error err =>
        rw [runECC_sign_error tpm issued randRsp cpRsp err hgr hcp hsg]
        refine ⟨_, rfl, Or.inr ⟨cpRsp.objectHandle, ?_, rfl, rfl⟩⟩
        simp [createdHandles, hc]
      | ok signRsp =>
        have hx : ∃ r, runECC tpm issued = (r,
            issued ++ [.GetRandom 4, eccCreatePrimary randRsp.randomBytes,
              .Sign cpRsp.objectHandle cpRsp.name (zeroBytes 32) TPMSTHashCheck,
              .VerifySignature cpRsp.objectHandle (zeroBytes 32) signRsp.signature,
              .FlushContext cpRsp.objectHandle]) := by
          cases hvf : tpm (issued ++ [.GetRandom 4, eccCreatePrimary randRsp.randomBytes,
              .Sign cpRsp.objectHandle cpRsp.name (zeroBytes 32) TPMSTHashCheck])
              (.VerifySignature cpRsp.objectHandle (zeroBytes 32) signRsp.signature) with
          | error err =>
            exact ⟨_, runECC_verify_error tpm issued randRsp cpRsp signRsp err hgr hcp hsg hvf⟩
          | ok u =>
            exact ⟨_, runECC_verify_ok tpm issued randRsp cpRsp signRsp hgr hcp hsg hvf⟩
        obtain ⟨r, hr⟩ := hx
        rw [hr]
        refine ⟨_, rfl, Or.inr ⟨cpRsp.objectHandle, ?_, rfl, rfl⟩⟩
        simp [createdHandles, hc]

/-- C3: for each of `runSealUnseal`, `runRSA` and `runECC`, on every session
and after any earlier commands: when the `CreatePrimary` of the call succeeds
with handle `h`, the call issues exactly one `FlushContext`, for `h`, as its
last command, whatever the later steps answer; when no `CreatePrimary` of the
call succeeds (it fails or is not reached), the call issues no `FlushContext`. -/
theorem executors_flush_created_handle (tpm : TPM) (issued : List Command) :
    FlushDiscipline runSealUnseal tpm issued ∧ FlushDiscipline runRSA tpm issued ∧
      FlushDiscipline runECC tpm issued :=
  ⟨runSealUnseal_flushDiscipline tpm issued, runRSA_flushDiscipline tpm issued,
    runECC_flushDiscipline tpm issued⟩

/-! ## Executors: the returned value -/

/-- C6: on every session, `runSealUnseal` returns nil exactly when its
`CreatePrimary` succeeds, its `Unseal` succeeds and the unsealed bytes are the
seven bytes of "secrets"; when both commands succeed and the bytes are anything
else, it returns the error built from the text "incorrect data unsealed",
which is neither nil nor an error of the session. -/
theorem runSealUnseal_nil_iff (tpm : TPM) (issued : List Command) :
    ((runSealUnseal tpm issued).1 = none ↔
      ∃ cpRsp unsealRsp, tpm issued sealCreatePrimary = .ok cpRsp ∧
        tpm (issued ++ [sealCreatePrimary])
          (.Unseal cpRsp.objectHandle (bytesOf "password") cpRsp.name) = .ok unsealRsp ∧
        unsealRsp.outData = [115, 101, 99, 114, 101, 116, 115]) ∧
    (∀ cpRsp unsealRsp, tpm issued sealCreatePrimary = .ok cpRsp →
        tpm (issued ++ [sealCreatePrimary])
          (.Unseal cpRsp.objectHandle (bytesOf "password") cpRsp.name) = .ok unsealRsp →
        unsealRsp.outData ≠ [115, 101, 99, 114, 101, 116, 115] →
        (runSealUnseal tpm issued).1 = some (.errorf "incorrect data unsealed") ∧
        ∀ text, (runSealUnseal tpm issued).1 ≠ some (.external text)) := by
  have hsec : bytesOf "secrets" = [115, 101, 99, 114, 101, 116, 115] := by decide
  constructor
  · constructor
    · intro hnil
      cases hcp : tpm issued sealCreatePrimary with
      | error err =>
        rw [runSealUnseal_createPrimary_error tpm issued err hcp] at hnil
        simp at hnil
      | ok cpRsp =>
        cases hun : tpm (issued ++ [sealCreatePrimary])
            (.Unseal cpRsp.objectHandle (bytesOf "password") cpRsp.name) with
        | error err =>
          rw [runSealUnseal_unseal_error tpm issued cpRsp err hcp hun] at hnil
          simp at hnil
        | ok unsealRsp =>
          rw [runSealUnseal_unseal_ok tpm issued cpRsp unsealRsp hcp hun] at hnil
          refine ⟨cpRsp, unsealRsp, rfl, hun, ?_⟩
          by_contra hne
          rw [hsec] at hnil
          simp [hne] at hnil
    · rintro ⟨cpRsp, unsealRsp, hcp, hun, hdata⟩
      rw [runSealUnseal_unseal_ok tpm issued cpRsp unsealRsp hcp hun, hsec]
      simp [hdata]
  · intro cpRsp unsealRsp hcp hun hne
    rw [runSealUnseal_unseal_ok tpm issued cpRsp unsealRsp hcp hun, hsec]
    simp [hne]

theorem runSealUnseal_nil_iff_witness :
    (runSealUnseal (unsealingTPM []) []).1 = some (.errorf "incorrect data unsealed") ∧
      ∀ text, (runSealUnseal (unsealingTPM []) []).1 ≠ some (.external text) :=
  (runSealUnseal_nil_iff (unsealingTPM []) []).2 ⟨0x80000000, [0, 11]⟩ ⟨[]⟩ rfl rfl (by decide)

theorem runSealUnseal_firstFailure (tpm : TPM) (issued : List Command) :
    FirstFailureRule runSealUnseal [.CreatePrimary, .Unseal] tpm issued := by
  unfold FirstFailureRule
  cases hcp : tpm issued sealCreatePrimary with
  | error err =>
    rw [runSealUnseal_createPrimary_error tpm issued err hcp]
    refine ⟨_, rfl, by simp [stepKinds_cons, stepKinds_nil], ?_⟩
    simp [firstFailure, errorOf, stepKinds_cons, stepKinds_nil, hcp]
  | ok cpRsp =>
    cases hun : tpm (issued ++ [sealCreatePrimary])
        (.Unseal cpRsp.objectHandle (bytesOf "password") cpRsp.name) with
    | error err =>
      rw [runSealUnseal_unseal_error tpm issued cpRsp err hcp hun]
      refine ⟨_, rfl, by simp [stepKinds_cons, stepKinds_nil], ?_⟩
      simp [firstFailure, errorOf, stepKinds_cons, stepKinds_nil, hcp, hun]
    | ok unsealRsp =>
      rw [runSealUnseal_unseal_ok tpm issued cpRsp unsealRsp hcp hun]
      refine ⟨_, rfl, by simp [stepKinds_cons, stepKinds_nil], ?_⟩
      simp [firstFailure, errorOf, stepKinds_cons, stepKinds_nil, hcp, hun, unsealedData, payloadCheck,
        unsealedBy_ok tpm _ _ unsealRsp hun, dataOf]

theorem runPCRExtend_firstFailure (tpm : TPM) (issued : List Command) :
    FirstFailureRule runPCRExtend [.PCREvent] tpm issued := by
  unfold FirstFailureRule
  cases hev : tpm issued (.PCREvent 0 (bytesOf "measurement")) with
  | error err =>
    rw [runPCRExtend_error tpm issued err hev]
    refine ⟨_, rfl, by simp [stepKinds_cons, stepKinds_nil], ?_⟩
    simp [firstFailure, errorOf, stepKinds_cons, stepKinds_nil, hev]
  | ok u =>
    rw [runPCRExtend_ok tpm issued hev]
    refine ⟨_, rfl, by simp [stepKinds_cons, stepKinds_nil], ?_⟩
    simp [firstFailure, errorOf, stepKinds_cons, stepKinds_nil, hev, unsealedData]

theorem runRSA_firstFailure (tpm : TPM) (issued : List Command) :
    FirstFailureRule runRSA [.GetRandom, .CreatePrimary, .Sign, .VerifySignature]
      tpm issued := by
  unfold FirstFailureRule
  cases hgr : tpm issued (.GetRandom 4) with
  | error err =>
    rw [runRSA_getRandom_error tpm issued err hgr]
    refine ⟨_, rfl, by simp [stepKinds_cons, stepKinds_nil], ?_⟩
    simp [firstFailure, errorOf, stepKinds_cons, stepKinds_nil, hgr]
  | ok randRsp =>
    cases hcp : tpm (issued ++ [.GetRandom 4]) (rsaCreatePrimary randRsp.randomBytes) with
    | error err =>
      rw [runRSA_createPrimary_error tpm issued randRsp err hgr hcp]
      refine ⟨_, rfl, by simp [stepKinds_cons, stepKinds_nil], ?_⟩
      simp [firstFailure, errorOf, stepKinds_cons, stepKinds_nil, hgr, hcp]
    | ok cpRsp =>
      cases hsg : tpm (issued ++ [.GetRandom 4, rsaCreatePrimary randRsp.randomBytes])
          (.Sign cpRsp.objectHandle cpRsp.name (zeroBytes 32) TPMSTHashCheck) with
      | error err =>
        rw [runRSA_sign_error tpm issued randRsp cpRsp err hgr hcp hsg]
        refine ⟨_, rfl, by simp [stepKinds_cons, stepKinds_nil], ?_⟩
        simp [firstFailure, errorOf, stepKinds_cons, stepKinds_nil, hgr, hcp, hsg]
      | ok signRsp =>
        cases hvf : tpm (issued ++ [.GetRandom 4, rsaCreatePrimary randRsp.randomBytes,
            .Sign cpRsp.objectHandle cpRsp.name (zeroBytes 32) TPMSTHashCheck])
            (.VerifySignature cpRsp.objectHandle (zeroBytes 32) signRsp.signature) with
        | error err =>
          rw [runRSA_verify_error tpm issued randRsp cpRsp signRsp err hgr hcp hsg hvf]
          refine ⟨_, rfl, by simp [stepKinds_cons, stepKinds_nil], ?_⟩
          simp [firstFailure, errorOf, stepKinds_cons, stepKinds_nil, hgr, hcp, hsg, hvf]
        | ok u =>
          rw [runRSA_verify_ok tpm issued randRsp cpRsp signRsp hgr hcp hsg hvf]
          refine ⟨_, rfl, by simp [stepKinds_cons, stepKinds_nil], ?_⟩
          simp [firstFailure, errorOf, stepKinds_cons, stepKinds_nil, hgr, hcp, hsg, hvf, unsealedData]

theorem runECC_firstFailure (tpm : TPM) (issued : List Command) :
    FirstFailureRule runECC [.GetRandom, .CreatePrimary, .Sign, .VerifySignature]
      tpm issued := by
  unfold FirstFailureRule
  cases hgr : tpm issued (.GetRandom 4) with
  | error err =>
    rw [runECC_getRandom_error tpm issued err hgr]
    refine ⟨_, rfl, by simp [stepKinds_cons, stepKinds_nil], ?_⟩
    simp [firstFailure, errorOf, stepKinds_cons, stepKinds_nil, hgr]
  | ok randRsp =>
    cases hcp : tpm (issued ++ [.GetRandom 4]) (eccCreatePrimary randRsp.randomBytes) with
    | error err =>
      rw [runECC_createPrimary_error tpm issued randRsp err hgr hcp]
      refine ⟨_, rfl, by simp [stepKinds_cons, stepKinds_nil], ?_⟩
      simp [firstFailure, errorOf, stepKinds_cons, stepKinds_nil, hgr, hcp]
    | ok cpRsp =>
      cases hsg : tpm (issued ++ [.GetRandom 4, eccCreatePrimary randRsp.randomBytes])
          (.Sign cpRsp.objectHandle cpRsp.name (zeroBytes 32) TPMSTHashCheck) with
      | error err =>
        rw [runECC_sign_error tpm issued randRsp cpRsp err hgr hcp hsg]
        refine ⟨_, rfl, by simp [stepKinds_cons, stepKinds_nil], ?_⟩
        simp [firstFailure, errorOf, stepKinds_cons, stepKinds_nil, hgr, hcp, hsg]
      | ok signRsp =>
        cases hvf : tpm (issued ++ [.GetRandom 4, eccCreatePrimary randRsp.randomBytes,
            .Sign cpRsp.objectHandle cpRsp.name (zeroBytes 32) TPMSTHashCheck])
            (.VerifySignature cpRsp.objectHandle (zeroBytes 32) signRsp.signature) with
        | error err =>
          rw [runECC_verify_error tpm issued randRsp cpRsp signRsp err hgr hcp hsg hvf]
          refine ⟨_, rfl, by simp [stepKinds_cons, stepKinds_nil], ?_⟩
          simp [firstFailure, errorOf, stepKinds_cons, stepKinds_nil, hgr, hcp, hsg, hvf]
        | ok u =>
          rw [runECC_verify_ok tpm issued randRsp cpRsp signRsp hgr hcp hsg hvf]
          refine ⟨_, rfl, by simp [stepKinds_cons, stepKinds_nil], ?_⟩
          simp [firstFailure, errorOf, stepKinds_cons, stepKinds_nil, hgr, hcp, hsg, hvf, unsealedData]

theorem runSealUnseal_congr (tpm tpm2 : TPM) (issued : List Command)
    (h : ∀ x c, isFlush c = false → tpm2 (issued ++ x) c = tpm (issued ++ x) c) :
    runSealUnseal tpm2 issued = runSealUnseal tpm issued := by
  cases hcp : tpm issued sealCreatePrimary with
  | error err =>
    have hcp2 : tpm2 issued sealCreatePrimary = .error err := by
      simpa [hcp] using h [] sealCreatePrimary rfl
    rw [runSealUnseal_createPrimary_error tpm issued err hcp,
      runSealUnseal_createPrimary_error tpm2 issued err hcp2]
  | ok cpRsp =>
    have hcp2 : tpm2 issued sealCreatePrimary = .ok cpRsp := by
      simpa [hcp] using h [] sealCreatePrimary rfl
    cases hun : tpm (issued ++ [sealCreatePrimary])
        (.Unseal cpRsp.objectHandle (bytesOf "password") cpRsp.name) with
    | error err =>
      have hun2 := (h [sealCreatePrimary]
        (.Unseal cpRsp.objectHandle (bytesOf "password") cpRsp.name) rfl).trans hun
      rw [runSealUnseal_unseal_error tpm issued cpRsp err hcp hun,
        runSealUnseal_unseal_error tpm2 issued cpRsp err hcp2 hun2]
    | ok unsealRsp =>
      have hun2 := (h [sealCreatePrimary]
        (.Unseal cpRsp.objectHandle (bytesOf "password") cpRsp.name) rfl).trans hun
      rw [runSealUnseal_unseal_ok tpm issued cpRsp unsealRsp hcp hun,
        runSealUnseal_unseal_ok tpm2 issued cpRsp unsealRsp hcp2 hun2]

theorem runPCRExtend_congr (tpm tpm2 : TPM) (issued : List Command)
    (h : ∀ x c, isFlush c = false → tpm2 (issued ++ x) c = tpm (issued ++ x) c) :
    runPCRExtend tpm2 issued = runPCRExtend tpm issued := by
  have h0 : tpm2 issued (.PCREvent 0 (bytesOf "measurement")) =
      tpm issued (.PCREvent 0 (bytesOf "measurement")) := by
    simpa using h [] (.PCREvent 0 (bytesOf "measurement")) rfl
  simp only [runPCRExtend, Execute, h0]

theorem runRSA_congr (tpm tpm2 : TPM) (issued : List Command)
    (h : ∀ x c, isFlush c = false → tpm2 (issued ++ x) c = tpm (issued ++ x) c) :
    runRSA tpm2 issued = runRSA tpm issued := by
  cases hgr : tpm issued (.GetRandom 4) with
  | error err =>
    have hgr2 : tpm2 issued (.GetRandom 4) = .error err := by
      simpa [hgr] using h [] (.GetRandom 4) rfl
    rw [runRSA_getRandom_error tpm issued err hgr, runRSA_getRandom_error tpm2 issued err hgr2]
  | ok randRsp =>
    have hgr2 : tpm2 issued (.GetRandom 4) = .ok randRsp := by
      simpa [hgr] using h [] (.GetRandom 4) rfl
    cases hcp : tpm (issued ++ [.GetRandom 4]) (rsaCreatePrimary randRsp.randomBytes) with
    | error err =>
      have hcp2 := (h [.GetRandom 4] (rsaCreatePrimary randRsp.randomBytes) rfl).trans hcp
      rw [runRSA_createPrimary_error tpm issued randRsp err hgr hcp,
        runRSA_createPrimary_error tpm2 issued randRsp err hgr2 hcp2]
    | ok cpRsp =>
      have hcp2 := (h [.GetRandom 4] (rsaCreatePrimary randRsp.randomBytes) rfl).trans hcp
      cases hsg : tpm (issued ++ [.GetRandom 4, rsaCreatePrimary randRsp.randomBytes])
          (.Sign cpRsp.objectHandle cpRsp.name (zeroBytes 32) TPMSTHashCheck) with
      | error err =>
        have hsg2 := (h [.GetRandom 4, rsaCreatePrimary randRsp.randomBytes]
          (.Sign cpRsp.objectHandle cpRsp.name (zeroBytes 32) TPMSTHashCheck) rfl).trans hsg
        rw [runRSA_sign_error tpm issued randRsp cpRsp err hgr hcp hsg,
          runRSA_sign_error tpm2 issued randRsp cpRsp err hgr2 hcp2 hsg2]
      | ok signRsp =>
        have hsg2 := (h [.GetRandom 4, rsaCreatePrimary randRsp.randomBytes]
          (.Sign cpRsp.objectHandle cpRsp.name (zeroBytes 32) TPMSTHashCheck) rfl).trans hsg
        cases hvf : tpm (issued ++ [.GetRandom 4, rsaCreatePrimary randRsp.randomBytes,
            .Sign cpRsp.objectHandle cpRsp.name (zeroBytes 32) TPMSTHashCheck])
            (.VerifySignature cpRsp.objectHandle (zeroBytes 32) signRsp.signature) with
        | error err =>
          have hvf2 := (h [.GetRandom 4, rsaCreatePrimary randRsp.randomBytes,
            .Sign cpRsp.objectHandle cpRsp.name (zeroBytes 32) TPMSTHashCheck]
            (.VerifySignature cpRsp.objectHandle (zeroBytes 32) signRsp.signature) rfl).trans hvf
          rw [runRSA_verify_error tpm issued randRsp cpRsp signRsp err hgr hcp hsg hvf,
            runRSA_verify_error tpm2 issued randRsp cpRsp signRsp err hgr2 hcp2 hsg2 hvf2]
        | ok u =>
          have hvf2 := (h [.GetRandom 4, rsaCreatePrimary randRsp.randomBytes,
            .Sign cpRsp.objectHandle cpRsp.name (zeroBytes 32) TPMSTHashCheck]
            (.VerifySignature cpRsp.objectHandle (zeroBytes 32) signRsp.signature) rfl).trans hvf
          rw [runRSA_verify_ok tpm issued randRsp cpRsp signRsp hgr hcp hsg hvf,
            runRSA_verify_ok tpm2 issued randRsp cpRsp signRsp hgr2 hcp2 hsg2 hvf2]

theorem runECC_congr (tpm tpm2 : TPM) (issued : List Command)
    (h : ∀ x c, isFlush c = false → tpm2 (issued ++ x) c = tpm (issued ++ x) c) :
    runECC tpm2 issued = runECC tpm issued := by
  cases hgr : tpm issued (.GetRandom 4) with
  | error err =>
    have hgr2 : tpm2 issued (.GetRandom 4) = .error err := by
      simpa [hgr] using h [] (.GetRandom 4) rfl
    rw [runECC_getRandom_error tpm issued err hgr, runECC_getRandom_error tpm2 issued err hgr2]
  | ok randRsp =>
    have hgr2 : tpm2 issued (.GetRandom 4) = .ok randRsp := by
      simpa [hgr] using h [] (.GetRandom 4) rfl
    cases hcp : tpm (issued ++ [.GetRandom 4]) (eccCreatePrimary randRsp.randomBytes) with
    | error err =>
      have hcp2 := (h [.GetRandom 4] (eccCreatePrimary randRsp.randomBytes) rfl).trans hcp
      rw [runECC_createPrimary_error tpm issued randRsp err hgr hcp,
        runECC_createPrimary_error tpm2 issued randRsp err hgr2 hcp2]
    | ok cpRsp =>
      have hcp2 := (h [.GetRandom 4] (eccCreatePrimary randRsp.randomBytes) rfl).trans hcp
      cases hsg : tpm (issued ++ [.GetRandom 4, eccCreatePrimary randRsp.randomBytes])
          (.Sign cpRsp.objectHandle cpRsp.name (zeroBytes 32) TPMSTHashCheck) with
      | error err =>
        have hsg2 := (h [.GetRandom 4, eccCreatePrimary randRsp.randomBytes]
          (.Sign cpRsp.objectHandle cpRsp.name (zeroBytes 32) TPMSTHashCheck) rfl).trans hsg
        rw [runECC_sign_error tpm issued randRsp cpRsp err hgr hcp hsg,
          runECC_sign_error tpm2 issued randRsp cpRsp err hgr2 hcp2 hsg2]
      | ok signRsp =>
        have hsg2 := (h [.GetRandom 4, eccCreatePrimary randRsp.randomBytes]
          (.Sign cpRsp.objectHandle cpRsp.name (zeroBytes 32) TPMSTHashCheck) rfl).trans hsg
        cases hvf : tpm (issued ++ [.GetRandom 4, eccCreatePrimary randRsp.randomBytes,
            .Sign cpRsp.objectHandle cpRsp.name (zeroBytes 32) TPMSTHashCheck])
            (.VerifySignature cpRsp.objectHandle (zeroBytes 32) signRsp.signature) with
        | error err =>
          have hvf2 := (h [.GetRandom 4, eccCreatePrimary randRsp.randomBytes,
            .Sign cpRsp.objectHandle cpRsp.name (zeroBytes 32) TPMSTHashCheck]
            (.VerifySignature cpRsp.objectHandle (zeroBytes 32) signRsp.signature) rfl).trans hvf
          rw [runECC_verify_error tpm issued randRsp cpRsp signRsp err hgr hcp hsg hvf,
            runECC_verify_error tpm2 issued randRsp cpRsp signRsp err hgr2 hcp2 hsg2 hvf2]
        | ok u =>
          have hvf2 := (h [.GetRandom 4, eccCreatePrimary randRsp.randomBytes,
            .Sign cpRsp.objectHandle cpRsp.name (zeroBytes 32) TPMSTHashCheck]
            (.VerifySignature cpRsp.objectHandle (zeroBytes 32) signRsp.signature) rfl).trans hvf
          rw [runECC_verify_ok tpm issued randRsp cpRsp signRsp hgr hcp hsg hvf,
            runECC_verify_ok tpm2 issued randRsp cpRsp signRsp hgr2 hcp2 hsg2 hvf2]

/-- C7: every executor, on every session, issues the steps of its linear
pipeline in order and stops issuing steps only at a step that fails: if a
step fails it returns the error of the first failing step, as the session
gave it, and issues nothing but cleanup after that step; if no step fails it
has issued every step of the pipeline and returns the outcome of the payload
check (nil when there is nothing to check); and it returns the same value and
issues the same commands on any session that differs only in its answers to
the cleanup command. -/
theorem executors_return_first_failure (tpm tpm2 : TPM) (issued : List Command)
    (h : AgreeUpToFlush tpm tpm2) :
    (FirstFailureRule runSealUnseal [.CreatePrimary, .Unseal] tpm issued ∧
      FirstFailureRule runPCRExtend [.PCREvent] tpm issued ∧
      FirstFailureRule runRSA [.GetRandom, .CreatePrimary, .Sign, .VerifySignature]
        tpm issued ∧
      FirstFailureRule runECC [.GetRandom, .CreatePrimary, .Sign, .VerifySignature]
        tpm issued) ∧
    (runSealUnseal tpm2 issued = runSealUnseal tpm issued ∧
      runPCRExtend tpm2 issued = runPCRExtend tpm issued ∧
      runRSA tpm2 issued = runRSA tpm issued ∧
      runECC tpm2 issued = runECC tpm issued) :=
  ⟨⟨runSealUnseal_firstFailure tpm issued, runPCRExtend_firstFailure tpm issued,
      runRSA_firstFailure tpm issued, runECC_firstFailure tpm issued⟩,
    runSealUnseal_congr tpm tpm2 issued (fun _ c hc => h _ c hc),
    runPCRExtend_congr tpm tpm2 issued (fun _ c hc => h _ c hc),
    runRSA_congr tpm tpm2 issued (fun _ c hc => h _ c hc),
    runECC_congr tpm tpm2 issued (fun _ c hc => h _ c hc)⟩

theorem executors_return_first_failure_witness :
    (FirstFailureRule runSealUnseal [.CreatePrimary, .Unseal] (failingAt 3) [] ∧
      FirstFailureRule runPCRExtend [.PCREvent] (failingAt 3) [] ∧
      FirstFailureRule runRSA [.GetRandom, .CreatePrimary, .Sign, .VerifySignature]
        (failingAt 3) [] ∧
      FirstFailureRule runECC [.GetRandom, .CreatePrimary, .Sign, .VerifySignature]
        (failingAt 3) []) ∧
    (runSealUnseal (flushFailing (failingAt 3)) [] = runSealUnseal (failingAt 3) [] ∧
      runPCRExtend (flushFailing (failingAt 3)) [] = runPCRExtend (failingAt 3) [] ∧
      runRSA (flushFailing (failingAt 3)) [] = runRSA (failingAt 3) [] ∧
      runECC (flushFailing (failingAt 3)) [] = runECC (failingAt 3) []) :=
  executors_return_first_failure (failingAt 3) (flushFailing (failingAt 3)) []
    (fun _ c hc => by cases c <;> first | rfl | exact absurd hc (by simp))

/-- On the session of the witness the fourth command of `runRSA`, its
`VerifySignature`, fails, and `runRSA` returns that error after the cleanup. -/
theorem runRSA_failingAt_three :
    runRSA (failingAt 3) [] = (some (.external "TPM_RC_FAILURE"),
      [.GetRandom 4, rsaCreatePrimary [7, 7, 7, 7],
        .Sign 0x80000000 [0, 11] (zeroBytes 32) TPMSTHashCheck,
        .VerifySignature 0x80000000 (zeroBytes 32) [1, 2, 3], .FlushContext 0x80000000]) := by
  decide

/-! ## The runner: the iteration loop -/

theorem iterate_succ_last (exec : TPM → List Command → Option GoError × List Command)
    (tpm : TPM) (n : Nat) (issued : List Command) :
    iterate exec tpm (n + 1) issued = (exec tpm (iterate exec tpm n issued)).2 := by
  induction n generalizing issued with
  | zero => rfl
  | succ n ih =>
    show iterate exec tpm (n + 1) (exec tpm issued).2 = _
    rw [ih]
    rfl

theorem loop_done (t : Int) (tpm : TPM) (count i : Int) (issued : List Command) (bar : Nat)
    (h : ¬ i < count) : test.run.loop t tpm count i issued bar = (none, issued, bar) := by
  rw [test.run.loop, dif_neg h]

theorem loop_step_ok (t : Int) (tpm : TPM) (count i : Int) (issued : List Command) (bar : Nat)
    (exec : TPM → List Command → Option GoError × List Command)
    (h : i < count) (hexec : executor t = some exec) (hr : (exec tpm issued).1 = none) :
    test.run.loop t tpm count i issued bar =
      test.run.loop t tpm count (i + 1) (exec tpm issued).2 (bar + 1) := by
  rw [test.run.loop, dif_pos h]
  simp only [hexec]
  cases hx : exec tpm issued with
  | mk r issued1 =>
    rw [hx] at hr
    simp only at hr
    subst hr
    rfl

theorem loop_step_error (t : Int) (tpm : TPM) (count i : Int) (issued : List Command) (bar : Nat)
    (exec : TPM → List Command → Option GoError × List Command) (err : GoError)
    (h : i < count) (hexec : executor t = some exec) (hr : (exec tpm issued).1 = some err) :
    test.run.loop t tpm count i issued bar =
      (some (.returned (some err)), (exec tpm issued).2, bar) := by
  rw [test.run.loop, dif_pos h]
  simp only [hexec]
  cases hx : exec tpm issued with
  | mk r issued1 =>
    rw [hx] at hr
    simp only at hr
    subst hr
    rfl

theorem loop_invalid (t : Int) (tpm : TPM) (count i : Int) (issued : List Command) (bar : Nat)
    (h : i < count) (hexec : executor t = none) :
    test.run.loop t tpm count i issued bar =
      (some (.panicked ("invalid test specified: " ++ test.String t)), issued, bar) := by
  rw [test.run.loop, dif_pos h]
  simp only [hexec]

theorem loop_all_ok (t : Int) (tpm : TPM) (count : Int)
    (exec : TPM → List Command → Option GoError × List Command)
    (hexec : executor t = some exec) (n : Nat) :
    ∀ (i : Int) (issued : List Command) (bar : Nat), (count - i).toNat = n →
      (∀ j, j < n → (exec tpm (iterate exec tpm j issued)).1 = none) →
      test.run.loop t tpm count i issued bar = (none, iterate exec tpm n issued, bar + n) := by
  induction n with
  | zero =>
    intro i issued bar hn _
    rw [loop_done t tpm count i issued bar (by omega)]
    rfl
  | succ n ih =>
    intro i issued bar hn hok
    rw [loop_step_ok t tpm count i issued bar exec (by omega) hexec (hok 0 (by omega))]
    rw [ih (i + 1) _ (bar + 1) (by omega) (fun j hj => hok (j + 1) (by omega))]
    simp only [iterate, Nat.add_assoc, Nat.add_comm 1 n]

theorem loop_fails_at (t : Int) (tpm : TPM) (count : Int)
    (exec : TPM → List Command → Option GoError × List Command) (err : GoError)
    (hexec : executor t = some exec) (k : Nat) :
    ∀ (i : Int) (issued : List Command) (bar : Nat), i + k < count →
      (∀ j, j < k → (exec tpm (iterate exec tpm j issued)).1 = none) →
      (exec tpm (iterate exec tpm k issued)).1 = some err →
      test.run.loop t tpm count i issued bar =
        (some (.returned (some err)), iterate exec tpm (k + 1) issued, bar + k) := by
  induction k with
  | zero =>
    intro i issued bar hi _ herr
    rw [loop_step_error t tpm count i issued bar exec err (by omega) hexec herr]
    rfl
  | succ k ih =>
    intro i issued bar hi hok herr
    rw [loop_step_ok t tpm count i issued bar exec (by omega) hexec (hok 0 (by omega))]
    rw [ih (i + 1) _ (bar + 1) (by omega) (fun j hj => hok (j + 1) (by omega)) herr]
    simp only [iterate, Nat.add_assoc, Nat.add_comm 1 k]

theorem executor_isSome_iff (t : Int) : validTest t ↔ ∃ exec, executor t = some exec := by
  unfold validTest executor
  constructor
  · rintro (h | h | h | h) <;> subst h <;> exact ⟨_, rfl⟩
  · rintro ⟨exec, h⟩
    split_ifs at h with h1 h2 h3 h4
    · exact Or.inl h1
    · exact Or.inr (Or.inl h2)
    · exact Or.inr (Or.inr (Or.inl h3))
    · exact Or.inr (Or.inr (Or.inr h4))

theorem run_def (t : Int) (tpm : TPM) (issued : List Command) (count duration : Int) :
    test.run t tpm issued count duration =
      match test.run.loop t tpm count 0 (issued ++ [.Startup TPMSUClear]) 0 with
      | (some outcome, issued1, bar) => ⟨outcome, issued1, bar, none⟩
      | (none, issued1, bar) =>
        if count = 0 then ⟨.panicked "runtime error: integer divide by zero", issued1, bar, none⟩
        else ⟨.returned none, issued1, bar,
          some ⟨test.String t, duration, wrapInt64 (Int.tdiv duration count)⟩⟩ := rfl

/-- C4: for a scenario `t` with executor `exec` (one of the four valid
scenarios), a count `count` and `1 ≤ K ≤ count`: if the first `K - 1` calls
of the executor return nil and call `K` returns the error `e`, then `t.run`
returns exactly `e`; the session has seen the commands of exactly `K` calls
of the executor after the startup command, the progress bar has `K - 1` ticks,
and nothing is printed. -/
theorem run_fail_fast (t : Int) (tpm : TPM) (issued : List Command) (count duration : Int)
    (exec : TPM → List Command → Option GoError × List Command) (K : Nat) (e : GoError)
    (hexec : executor t = some exec) (hK : 1 ≤ K) (hKN : (K : Int) ≤ count)
    (hok : ∀ j, j < K - 1 →
      (exec tpm (iterate exec tpm j (issued ++ [.Startup TPMSUClear]))).1 = none)
    (herr : (exec tpm (iterate exec tpm (K - 1) (issued ++ [.Startup TPMSUClear]))).1 = some e) :
    test.run t tpm issued count duration =
      ⟨.returned (some e), iterate exec tpm K (issued ++ [.Startup TPMSUClear]), K - 1, none⟩ := by
  obtain ⟨k, rfl⟩ : ∃ k, K = k + 1 := ⟨K - 1, by omega⟩
  simp only [Nat.add_sub_cancel] at hok herr ⊢
  have hl := loop_fails_at t tpm count exec e hexec k 0 (issued ++ [.Startup TPMSUClear]) 0
    (by push_cast at hKN; omega) hok herr
  rw [run_def, hl]
  simp

theorem run_fail_fast_witness :
    test.run sealUnseal (failingAt 5) [] 3 1000 =
      ⟨.returned (some (.external "TPM_RC_FAILURE")),
        iterate runSealUnseal (failingAt 5) 2 ([] ++ [.Startup TPMSUClear]), 2 - 1, none⟩ :=
  run_fail_fast sealUnseal (failingAt 5) [] 3 1000 runSealUnseal 2 (.external "TPM_RC_FAILURE")
    rfl (by decide) (by decide)
    (fun j hj => by
      have hj0 : j = 0 := by omega
      subst hj0
      decide)
    (by decide)

/-! ## The runner: a working session -/

theorem ok_of_errorOf_none {c : Command} (r : Except String (Command.Rsp c))
    (h : errorOf r = none) : ∃ rsp, r = .ok rsp := by
  cases r with
  | error err => simp [errorOf] at h
  | ok rsp => exact ⟨rsp, rfl⟩

theorem liveHandles_append (tpm : TPM) (a b : List Command) :
    ∀ (issued : List Command) (live : List Nat),
      liveHandles tpm issued (a ++ b) live =
        liveHandles tpm (issued ++ a) b (liveHandles tpm issued a live) := by
  induction a with
  | nil => intro issued live; simp [liveHandles]
  | cons c cs ih =>
    intro issued live
    show liveHandles tpm (issued ++ [c]) (cs ++ b) _ =
      liveHandles tpm (issued ++ c :: cs) b (liveHandles tpm (issued ++ [c]) cs _)
    rw [ih]
    simp

theorem working_runSealUnseal (tpm : TPM) (hw : Working tpm) (issued : List Command) :
    ∃ cpRsp : CreatePrimaryResponse, tpm issued sealCreatePrimary = .ok cpRsp ∧
      runSealUnseal tpm issued = (none, issued ++ [sealCreatePrimary,
        .Unseal cpRsp.objectHandle (bytesOf "password") cpRsp.name,
        .FlushContext cpRsp.objectHandle]) := by
  obtain ⟨cpRsp, hcp⟩ := ok_of_errorOf_none _ (hw.1 issued sealCreatePrimary)
  obtain ⟨unsealRsp, hun⟩ := ok_of_errorOf_none _ (hw.1 (issued ++ [sealCreatePrimary])
    (.Unseal cpRsp.objectHandle (bytesOf "password") cpRsp.name))
  refine ⟨cpRsp, hcp, ?_⟩
  rw [runSealUnseal_unseal_ok tpm issued cpRsp unsealRsp hcp hun]
  have hd : unsealRsp.outData = bytesOf "secrets" :=
    hw.2 _ _ _ (unsealedBy_ok tpm _ _ unsealRsp hun)
  simp [hd]

theorem working_runPCRExtend (tpm : TPM) (hw : Working tpm) (issued : List Command) :
    runPCRExtend tpm issued = (none, issued ++ [.PCREvent 0 (bytesOf "measurement")]) := by
  obtain ⟨u, hev⟩ := ok_of_errorOf_none _ (hw.1 issued (.PCREvent 0 (bytesOf "measurement")))
  exact runPCRExtend_ok tpm issued hev

theorem working_runRSA (tpm : TPM) (hw : Working tpm) (issued : List Command) :
    ∃ (randRsp : GetRandomResponse) (cpRsp : CreatePrimaryResponse) (signRsp : SignResponse),
      tpm (issued ++ [.GetRandom 4]) (rsaCreatePrimary randRsp.randomBytes) = .ok cpRsp ∧
      runRSA tpm issued = (none,
        issued ++ [.GetRandom 4, rsaCreatePrimary randRsp.randomBytes,
          .Sign cpRsp.objectHandle cpRsp.name (zeroBytes 32) TPMSTHashCheck,
          .VerifySignature cpRsp.objectHandle (zeroBytes 32) signRsp.signature,
          .FlushContext cpRsp.objectHandle]) := by
  obtain ⟨randRsp, hgr⟩ := ok_of_errorOf_none _ (hw.1 issued (.GetRandom 4))
  obtain ⟨cpRsp, hcp⟩ := ok_of_errorOf_none _ (hw.1 (issued ++ [.GetRandom 4])
    (rsaCreatePrimary randRsp.randomBytes))
  obtain ⟨signRsp, hsg⟩ := ok_of_errorOf_none _
    (hw.1 (issued ++ [.GetRandom 4, rsaCreatePrimary randRsp.randomBytes])
      (.Sign cpRsp.objectHandle cpRsp.name (zeroBytes 32) TPMSTHashCheck))
  obtain ⟨u, hvf⟩ := ok_of_errorOf_none _
    (hw.1 (issued ++ [.GetRandom 4, rsaCreatePrimary randRsp.randomBytes,
        .Sign cpRsp.objectHandle cpRsp.name (zeroBytes 32) TPMSTHashCheck])
      (.VerifySignature cpRsp.objectHandle (zeroBytes 32) signRsp.signature))
  exact ⟨randRsp, cpRsp, signRsp, hcp,
    runRSA_verify_ok tpm issued randRsp cpRsp signRsp hgr hcp hsg hvf⟩

theorem working_runECC (tpm : TPM) (hw : Working tpm) (issued : List Command) :
    ∃ (randRsp : GetRandomResponse) (cpRsp : CreatePrimaryResponse) (signRsp : SignResponse),
      tpm (issued ++ [.GetRandom 4]) (eccCreatePrimary randRsp.randomBytes) = .ok cpRsp ∧
      runECC tpm issued = (none,
        issued ++ [.GetRandom 4, eccCreatePrimary randRsp.randomBytes,
          .Sign cpRsp.objectHandle cpRsp.name (zeroBytes 32) TPMSTHashCheck,
          .VerifySignature cpRsp.objectHandle (zeroBytes 32) signRsp.signature,
          .FlushContext cpRsp.objectHandle]) := by
  obtain ⟨randRsp, hgr⟩ := ok_of_errorOf_none _ (hw.1 issued (.GetRandom 4))
  obtain ⟨cpRsp, hcp⟩ := ok_of_errorOf_none _ (hw.1 (issued ++ [.GetRandom 4])
    (eccCreatePrimary randRsp.randomBytes))
  obtain ⟨signRsp, hsg⟩ := ok_of_errorOf_none _
    (hw.1 (issued ++ [.GetRandom 4, eccCreatePrimary randRsp.randomBytes])
      (.Sign cpRsp.objectHandle cpRsp.name (zeroBytes 32) TPMSTHashCheck))
  obtain ⟨u, hvf⟩ := ok_of_errorOf_none _
    (hw.1 (issued ++ [.GetRandom 4, eccCreatePrimary randRsp.randomBytes,
        .Sign cpRsp.objectHandle cpRsp.name (zeroBytes 32) TPMSTHashCheck])
      (.VerifySignature cpRsp.objectHandle (zeroBytes 32) signRsp.signature))
  exact ⟨randRsp, cpRsp, signRsp, hcp,
    runECC_verify_ok tpm issued randRsp cpRsp signRsp hgr hcp hsg hvf⟩

theorem liveHandles_cons_step (tpm : TPM) (issued : List Command) (c : Command)
    (cs : List Command) (live : List Nat) (h : isFlush c = false) :
    liveHandles tpm issued (c :: cs) live =
      liveHandles tpm (issued ++ [c]) cs (live ++ (createdHandle tpm issued c).toList) := by
  cases c <;> first | rfl | simp at h

theorem liveHandles_cons_flush (tpm : TPM) (issued : List Command) (flushHandle : Nat)
    (cs : List Command) (live : List Nat)
    (h : errorOf (tpm issued (.FlushContext flushHandle)) = none) :
    liveHandles tpm issued (.FlushContext flushHandle :: cs) live =
      liveHandles tpm (issued ++ [.FlushContext flushHandle]) cs (live.erase flushHandle) := by
  simp only [liveHandles, h, if_true]

theorem liveHandles_nil (tpm : TPM) (issued : List Command) (live : List Nat) :
    liveHandles tpm issued [] live = live := rfl

theorem working_iteration (t : Int) (tpm : TPM)
    (exec : TPM → List Command → Option GoError × List Command)
    (hexec : executor t = some exec) (hw : Working tpm) (issued : List Command) :
    ∃ cmds, exec tpm issued = (none, issued ++ cmds) ∧ Hermetic t tpm issued cmds ∧
      liveHandles tpm issued cmds [] = [] := by
  unfold executor at hexec
  split_ifs at hexec with h1 h2 h3 h4
  · obtain rfl : runSealUnseal = exec := Option.some.inj hexec
    obtain ⟨cpRsp, hcp, hrun⟩ := working_runSealUnseal tpm hw issued
    have hc := createdHandle_ok tpm issued _ cpRsp hcp
    refine ⟨_, hrun, ?_, ?_⟩
    · rw [Hermetic, if_neg (by rw [h1]; decide)]
      refine ⟨cpRsp.objectHandle, ?_, rfl, rfl⟩
      simp only [createdHandles, hc]
      simp [handleOf, sealCreatePrimary]
    · rw [liveHandles_cons_step _ _ _ _ _ (by simp), liveHandles_cons_step _ _ _ _ _ (by simp),
        liveHandles_cons_flush _ _ _ _ _ (hw.1 _ _), liveHandles_nil, hc]
      simp [handleOf, sealCreatePrimary]
  · obtain rfl : runPCRExtend = exec := Option.some.inj hexec
    refine ⟨_, working_runPCRExtend tpm hw issued, ?_, ?_⟩
    · rw [Hermetic, if_pos h2]
    · rw [liveHandles_cons_step _ _ _ _ _ (by simp), liveHandles_nil]
      simp
  · obtain rfl : runRSA = exec := Option.some.inj hexec
    obtain ⟨randRsp, cpRsp, signRsp, hcp, hrun⟩ := working_runRSA tpm hw issued
    have hc := createdHandle_ok tpm _ _ cpRsp hcp
    refine ⟨_, hrun, ?_, ?_⟩
    · rw [Hermetic, if_neg (by rw [h3]; decide)]
      refine ⟨cpRsp.objectHandle, ?_, rfl, rfl⟩
      simp only [createdHandles, hc]
      simp [handleOf, rsaCreatePrimary]
    · rw [liveHandles_cons_step _ _ _ _ _ (by simp), liveHandles_cons_step _ _ _ _ _ (by simp),
        liveHandles_cons_step _ _ _ _ _ (by simp), liveHandles_cons_step _ _ _ _ _ (by simp),
        liveHandles_cons_flush _ _ _ _ _ (hw.1 _ _), liveHandles_nil, hc]
      simp [handleOf, rsaCreatePrimary]
  · obtain rfl : runECC = exec := Option.some.inj hexec
    obtain ⟨randRsp, cpRsp, signRsp, hcp, hrun⟩ := working_runECC tpm hw issued
    have hc := createdHandle_ok tpm _ _ cpRsp hcp
    refine ⟨_, hrun, ?_, ?_⟩
    · rw [Hermetic, if_neg (by rw [h4]; decide)]
      refine ⟨cpRsp.objectHandle, ?_, rfl, rfl⟩
      simp only [createdHandles, hc]
      simp [handleOf, eccCreatePrimary]
    · rw [liveHandles_cons_step _ _ _ _ _ (by simp), liveHandles_cons_step _ _ _ _ _ (by simp),
        liveHandles_cons_step _ _ _ _ _ (by simp), liveHandles_cons_step _ _ _ _ _ (by simp),
        liveHandles_cons_flush _ _ _ _ _ (hw.1 _ _), liveHandles_nil, hc]
      simp [handleOf, eccCreatePrimary]

theorem working_iterate_live (t : Int) (tpm : TPM)
    (exec : TPM → List Command → Option GoError × List Command)
    (hexec : executor t = some exec) (hw : Working tpm) (start : List Command) (n : Nat) :
    ∃ cmds, iterate exec tpm n start = start ++ cmds ∧ liveHandles tpm start cmds [] = [] := by
  induction n with
  | zero => exact ⟨[], by simp [iterate], rfl⟩
  | succ n ih =>
    obtain ⟨cmds, hc, hl⟩ := ih
    obtain ⟨more, hm, _, hlm⟩ := working_iteration t tpm exec hexec hw (iterate exec tpm n start)
    refine ⟨cmds ++ more, ?_, ?_⟩
    · rw [iterate_succ_last, hm, hc, List.append_assoc]
    · rw [liveHandles_append, hl, ← hc, hlm]

theorem working_iterate_pcr (tpm : TPM) (hw : Working tpm) (start : List Command) (n : Nat) :
    iterate runPCRExtend tpm n start =
      start ++ List.replicate n (.PCREvent 0 (bytesOf "measurement")) := by
  induction n with
  | zero => simp [iterate]
  | succ n ih =>
    rw [iterate_succ_last, working_runPCRExtend tpm hw, ih, List.replicate_succ',
      List.append_assoc]

/-- C8: for a scenario `t` with executor `exec` (one of the four valid
scenarios) and a count of at least one, on a working session `t.run` returns
nil after exactly `count` calls of the executor and prints the report; every
iteration is hermetic (its `CreatePrimary` is followed within the iteration by
the `FlushContext` of the handle it returned, as the last command of the
iteration); no handle created during the run is alive at its end; and for
`pcrExtend` the run issues the startup command and then `count` times the
`PCREvent` on PCR 0 with the data "measurement", and nothing else. -/
theorem run_working (t : Int) (tpm : TPM) (issued : List Command) (count duration : Int)
    (exec : TPM → List Command → Option GoError × List Command)
    (hexec : executor t = some exec) (hw : Working tpm) (hN : 1 ≤ count) :
    test.run t tpm issued count duration =
      ⟨.returned none, iterate exec tpm count.toNat (issued ++ [.Startup TPMSUClear]),
        count.toNat, some ⟨test.String t, duration, wrapInt64 (Int.tdiv duration count)⟩⟩ ∧
    (∀ j, j < count.toNat → ∃ cmds,
      iterate exec tpm (j + 1) (issued ++ [.Startup TPMSUClear]) =
        iterate exec tpm j (issued ++ [.Startup TPMSUClear]) ++ cmds ∧
      Hermetic t tpm (iterate exec tpm j (issued ++ [.Startup TPMSUClear])) cmds) ∧
    (∃ cmds, iterate exec tpm count.toNat (issued ++ [.Startup TPMSUClear]) =
        issued ++ [.Startup TPMSUClear] ++ cmds ∧
      liveHandles tpm (issued ++ [.Startup TPMSUClear]) cmds [] = []) ∧
    (t = pcrExtend → iterate exec tpm count.toNat (issued ++ [.Startup TPMSUClear]) =
      issued ++ [.Startup TPMSUClear] ++
        List.replicate count.toNat (.PCREvent 0 (bytesOf "measurement"))) := by
  refine ⟨?_, ?_, working_iterate_live t tpm exec hexec hw _ _, ?_⟩
  · have hl := loop_all_ok t tpm count exec hexec count.toNat 0
      (issued ++ [.Startup TPMSUClear]) 0 (by simp) (fun j _ => by
        obtain ⟨cmds, hc, _⟩ := working_iteration t tpm exec hexec hw
          (iterate exec tpm j (issued ++ [.Startup TPMSUClear]))
        rw [hc])
    rw [run_def, hl]
    have h0 : count ≠ 0 := by omega
    simp [h0]
  · intro j _
    obtain ⟨cmds, hc, hh, _⟩ := working_iteration t tpm exec hexec hw
      (iterate exec tpm j (issued ++ [.Startup TPMSUClear]))
    exact ⟨cmds, by rw [iterate_succ_last, hc], hh⟩
  · intro ht
    subst ht
    obtain rfl : runPCRExtend = exec := Option.some.inj hexec
    exact working_iterate_pcr tpm hw _ _

theorem workingTPM_working : Working workingTPM := by
  constructor
  · intro issued c
    cases c <;> rfl
  · intro issued c d h
    cases c <;> simp [unsealedBy, workingTPM, dataOf] at h
    exact h.symm

theorem run_working_witness :
    test.run pcrExtend workingTPM [] 3 900 =
      ⟨.returned none, iterate runPCRExtend workingTPM (3 : Int).toNat ([] ++ [.Startup TPMSUClear]),
        (3 : Int).toNat, some ⟨test.String pcrExtend, 900, wrapInt64 (Int.tdiv 900 3)⟩⟩ ∧
    (∀ j, j < (3 : Int).toNat → ∃ cmds,
      iterate runPCRExtend workingTPM (j + 1) ([] ++ [.Startup TPMSUClear]) =
        iterate runPCRExtend workingTPM j ([] ++ [.Startup TPMSUClear]) ++ cmds ∧
      Hermetic pcrExtend workingTPM
        (iterate runPCRExtend workingTPM j ([] ++ [.Startup TPMSUClear])) cmds) ∧
    (∃ cmds, iterate runPCRExtend workingTPM (3 : Int).toNat ([] ++ [.Startup TPMSUClear]) =
        [] ++ [.Startup TPMSUClear] ++ cmds ∧
      liveHandles workingTPM ([] ++ [.Startup TPMSUClear]) cmds [] = []) ∧
    (pcrExtend = pcrExtend →
      iterate runPCRExtend workingTPM (3 : Int).toNat ([] ++ [.Startup TPMSUClear]) =
        [] ++ [.Startup TPMSUClear] ++
          List.replicate (3 : Int).toNat (.PCREvent 0 (bytesOf "measurement"))) :=
  run_working pcrExtend workingTPM [] 3 900 runPCRExtend rfl workingTPM_working (by decide)

/-! ## The runner: the reported durations -/

theorem wrapInt64_of_range (x : Int) (h1 : -2 ^ 63 ≤ x) (h2 : x < 2 ^ 63) : wrapInt64 x = x := by
  unfold wrapInt64
  rw [Int.emod_eq_of_lt (by omega) (by omega)]
  omega

theorem tdiv_range (d n : Int) (hn : 0 < n) (h1 : -2 ^ 63 ≤ d) (h2 : d < 2 ^ 63) :
    -2 ^ 63 ≤ Int.tdiv d n ∧ Int.tdiv d n < 2 ^ 63 := by
  have habs : (Int.tdiv d n).natAbs ≤ d.natAbs := by
    rw [Int.natAbs_tdiv]
    exact Nat.div_le_self _ _
  rcases Int.le_total 0 d with hd | hd
  · have h0 : 0 ≤ Int.tdiv d n := Int.tdiv_nonneg hd (by omega)
    omega
  · have h0 : Int.tdiv d n ≤ 0 := by
      have := @Int.tdiv_nonneg (-d) n (by omega) (by omega)
      rw [Int.neg_tdiv] at this
      omega
    omega

/-- C9: for a count greater than zero and a measured duration in the range of
`int64`, the report of a completed run gives the measured duration and, as the
duration per iteration, its truncating quotient by the count; for a count of
one the two durations are the same. -/
theorem run_durationPerIteration (t : Int) (tpm : TPM) (issued : List Command)
    (count duration : Int) (report : Report)
    (hN : 0 < count) (hlo : -2 ^ 63 ≤ duration) (hhi : duration < 2 ^ 63)
    (hp : (test.run t tpm issued count duration).printed = some report) :
    (test.run t tpm issued count duration).outcome = .returned none ∧
    report.duration = duration ∧
    report.durationPerIteration = Int.tdiv duration count ∧
    (count = 1 → report.durationPerIteration = report.duration) := by
  rw [run_def] at hp ⊢
  rcases hl : test.run.loop t tpm count 0 (issued ++ [.Startup TPMSUClear]) 0 with
    ⟨o, issued1, bar⟩
  rw [hl] at hp ⊢
  have h0 : count ≠ 0 := by omega
  cases o with
  | some outcome => simp at hp
  | none =>
    simp only [h0, if_false, Option.some.injEq] at hp ⊢
    subst hp
    obtain ⟨r1, r2⟩ := tdiv_range duration count hN hlo hhi
    refine ⟨trivial, rfl, wrapInt64_of_range _ r1 r2, ?_⟩
    intro h1
    subst h1
    show wrapInt64 (Int.tdiv duration 1) = duration
    rw [Int.tdiv_one]
    exact wrapInt64_of_range _ hlo hhi

theorem run_pcrExtend_two :
    test.run pcrExtend workingTPM [] 2 7 =
      ⟨.returned none, [.Startup TPMSUClear, .PCREvent 0 (bytesOf "measurement"),
        .PCREvent 0 (bytesOf "measurement")], 2, some ⟨"pcr_extend", 7, 3⟩⟩ := by
  rw [run_def, loop_all_ok pcrExtend workingTPM 2 runPCRExtend rfl 2 0 _ 0 (by decide)
    (fun j _ => by
      obtain ⟨cmds, hc, _⟩ := working_iteration pcrExtend workingTPM runPCRExtend rfl
        workingTPM_working (iterate runPCRExtend workingTPM j ([] ++ [.Startup TPMSUClear]))
      rw [hc])]
  decide

theorem run_durationPerIteration_witness :
    (test.run pcrExtend workingTPM [] 2 7).outcome = .returned none ∧
    (⟨"pcr_extend", 7, 3⟩ : Report).duration = 7 ∧
    (⟨"pcr_extend", 7, 3⟩ : Report).durationPerIteration = Int.tdiv 7 2 ∧
    ((2 : Int) = 1 → (⟨"pcr_extend", 7, 3⟩ : Report).durationPerIteration =
      (⟨"pcr_extend", 7, 3⟩ : Report).duration) :=
  run_durationPerIteration pcrExtend workingTPM [] 2 7 ⟨"pcr_extend", 7, 3⟩ (by decide)
    (by decide) (by decide) (by rw [run_pcrExtend_two])

/-! ## The runner: the startup command -/

theorem extends_of_firstFailureRule
    (exec : TPM → List Command → Option GoError × List Command) (pipeline : List CommandKind)
    (tpm : TPM) (issued : List Command) (h : FirstFailureRule exec pipeline tpm issued)
    (hp : CommandKind.Startup ∉ pipeline) :
    ∃ cmds, (exec tpm issued).2 = issued ++ cmds ∧ ∀ c ∈ cmds, c.kind ≠ .Startup := by
  obtain ⟨cmds, heq, hpre, _⟩ := h
  refine ⟨cmds, heq, ?_⟩
  intro c hc hk
  apply hp
  apply hpre.subset
  rw [← hk]
  unfold stepKinds
  refine List.mem_map.mpr ⟨c, List.mem_filter.mpr ⟨hc, ?_⟩, rfl⟩
  cases c <;> first | rfl | simp at hk

theorem executor_extends (t : Int) (exec : TPM → List Command → Option GoError × List Command)
    (hexec : executor t = some exec) (tpm : TPM) (issued : List Command) :
    ∃ cmds, (exec tpm issued).2 = issued ++ cmds ∧ ∀ c ∈ cmds, c.kind ≠ .Startup := by
  unfold executor at hexec
  split_ifs at hexec with h1 h2 h3 h4
  · obtain rfl : runSealUnseal = exec := Option.some.inj hexec
    exact extends_of_firstFailureRule _ _ tpm issued (runSealUnseal_firstFailure tpm issued)
      (by decide)
  · obtain rfl : runPCRExtend = exec := Option.some.inj hexec
    exact extends_of_firstFailureRule _ _ tpm issued (runPCRExtend_firstFailure tpm issued)
      (by decide)
  · obtain rfl : runRSA = exec := Option.some.inj hexec
    exact extends_of_firstFailureRule _ _ tpm issued (runRSA_firstFailure tpm issued)
      (by decide)
  · obtain rfl : runECC = exec := Option.some.inj hexec
    exact extends_of_firstFailureRule _ _ tpm issued (runECC_firstFailure tpm issued)
      (by decide)

theorem executor_congr (t : Int) (exec : TPM → List Command → Option GoError × List Command)
    (hexec : executor t = some exec) (tpm tpm2 : TPM) (issued : List Command)
    (h : ∀ x c, isFlush c = false → tpm2 (issued ++ x) c = tpm (issued ++ x) c) :
    exec tpm2 issued = exec tpm issued := by
  unfold executor at hexec
  split_ifs at hexec with h1 h2 h3 h4
  · obtain rfl : runSealUnseal = exec := Option.some.inj hexec
    exact runSealUnseal_congr tpm tpm2 issued h
  · obtain rfl : runPCRExtend = exec := Option.some.inj hexec
    exact runPCRExtend_congr tpm tpm2 issued h
  · obtain rfl : runRSA = exec := Option.some.inj hexec
    exact runRSA_congr tpm tpm2 issued h
  · obtain rfl : runECC = exec := Option.some.inj hexec
    exact runECC_congr tpm tpm2 issued h

theorem loop_extends (t : Int) (tpm : TPM) (count : Int) (n : Nat) :
    ∀ (i : Int) (issued : List Command) (bar : Nat), (count - i).toNat = n →
      ∃ cmds, (test.run.loop t tpm count i issued bar).2.1 = issued ++ cmds ∧
        ∀ c ∈ cmds, c.kind ≠ .Startup := by
  induction n with
  | zero =>
    intro i issued bar hn
    rw [loop_done t tpm count i issued bar (by omega)]
    exact ⟨[], by simp, by simp⟩
  | succ n ih =>
    intro i issued bar hn
    cases hexec : executor t with
    | none =>
      rw [loop_invalid t tpm count i issued bar (by omega) hexec]
      exact ⟨[], by simp, by simp⟩
    | some exec =>
      obtain ⟨cmds, hc, hk⟩ := executor_extends t exec hexec tpm issued
      cases hr : (exec tpm issued).1 with
      | some err =>
        rw [loop_step_error t tpm count i issued bar exec err (by omega) hexec hr]
        exact ⟨cmds, hc, hk⟩
      | none =>
        rw [loop_step_ok t tpm count i issued bar exec (by omega) hexec hr]
        obtain ⟨more, hm, hkm⟩ := ih (i + 1) (exec tpm issued).2 (bar + 1) (by omega)
        refine ⟨cmds ++ more, by rw [hm, hc, List.append_assoc], ?_⟩
        intro c hcm
        rcases List.mem_append.mp hcm with h1 | h1
        · exact hk c h1
        · exact hkm c h1

theorem loop_congr (t : Int) (tpm tpm2 : TPM) (count : Int) (base : List Command)
    (h : ∀ x c, tpm2 (base ++ x) c = tpm (base ++ x) c) (n : Nat) :
    ∀ (i : Int) (x : List Command) (bar : Nat), (count - i).toNat = n →
      test.run.loop t tpm2 count i (base ++ x) bar =
        test.run.loop t tpm count i (base ++ x) bar := by
  induction n with
  | zero =>
    intro i x bar hn
    rw [loop_done t tpm count i _ bar (by omega), loop_done t tpm2 count i _ bar (by omega)]
  | succ n ih =>
    intro i x bar hn
    cases hexec : executor t with
    | none =>
      rw [loop_invalid t tpm count i _ bar (by omega) hexec,
        loop_invalid t tpm2 count i _ bar (by omega) hexec]
    | some exec =>
      have he : exec tpm2 (base ++ x) = exec tpm (base ++ x) :=
        executor_congr t exec hexec tpm tpm2 (base ++ x) (fun y c _ => by
          rw [List.append_assoc]; exact h _ c)
      obtain ⟨cmds, hc, _⟩ := executor_extends t exec hexec tpm (base ++ x)
      cases hr : (exec tpm (base ++ x)).1 with
      | some err =>
        rw [loop_step_error t tpm count i _ bar exec err (by omega) hexec hr,
          loop_step_error t tpm2 count i _ bar exec err (by omega) hexec (by rw [he]; exact hr),
          he]
      | none =>
        rw [loop_step_ok t tpm count i _ bar exec (by omega) hexec hr,
          loop_step_ok t tpm2 count i _ bar exec (by omega) hexec (by rw [he]; exact hr),
          he, hc, List.append_assoc]
        exact ih (i + 1) (x ++ cmds) (bar + 1) (by omega)

theorem run_issued (t : Int) (tpm : TPM) (issued : List Command) (count duration : Int) :
    ∃ cmds, (test.run t tpm issued count duration).issued =
        issued ++ [.Startup TPMSUClear] ++ cmds ∧
      ∀ c ∈ cmds, c.kind ≠ .Startup := by
  obtain ⟨cmds, hc, hk⟩ := loop_extends t tpm count (count - 0).toNat 0
    (issued ++ [.Startup TPMSUClear]) 0 rfl
  refine ⟨cmds, ?_, hk⟩
  rw [run_def]
  rcases hl : test.run.loop t tpm count 0 (issued ++ [.Startup TPMSUClear]) 0 with
    ⟨o, issued1, bar⟩
  rw [hl] at hc ⊢
  cases o with
  | some outcome => exact hc
  | none =>
    by_cases h0 : count = 0
    · simp only [h0, if_true]; exact hc
    · simp only [h0, if_false]; exact hc

/-- C10: `t.run` first issues one `Startup` command of type Clear and discards
its answer: for every scenario, count and pair of sessions that answer alike
every command issued after that startup command (while their answers to the
startup command itself may differ, one failing and the other succeeding), the
two runs end alike, with the same commands issued, the same ticks and the same
report; and no command issued after the first one is a `Startup`. -/
theorem run_ignores_startup (t : Int) (tpm tpm2 : TPM) (issued : List Command)
    (count duration : Int)
    (h : ∀ x c, tpm2 (issued ++ [.Startup TPMSUClear] ++ x) c =
      tpm (issued ++ [.Startup TPMSUClear] ++ x) c) :
    test.run t tpm2 issued count duration = test.run t tpm issued count duration ∧
    ∃ cmds, (test.run t tpm issued count duration).issued =
        issued ++ [.Startup TPMSUClear] ++ cmds ∧
      ∀ c ∈ cmds, c.kind ≠ .Startup := by
  constructor
  · have hl := loop_congr t tpm tpm2 count (issued ++ [.Startup TPMSUClear]) h
      (count - 0).toNat 0 [] 0 rfl
    rw [List.append_nil] at hl
    rw [run_def, run_def, hl]
  · exact run_issued t tpm issued count duration

theorem run_ignores_startup_witness :
    test.run sealUnseal (failingAt 0) [] 2 10 = test.run sealUnseal workingTPM [] 2 10 ∧
    ∃ cmds, (test.run sealUnseal workingTPM [] 2 10).issued =
        [] ++ [.Startup TPMSUClear] ++ cmds ∧
      ∀ c ∈ cmds, c.kind ≠ .Startup :=
  run_ignores_startup sealUnseal workingTPM (failingAt 0) [] 2 10
    (fun x c => by simp [failingAt])

/-! ## `mainErr`: the iteration count -/

theorem selectTest_valid (lowerRune : Char → Char) (testName : String) (t : Int)
    (h : selectTest lowerRune testName = (t, none)) : validTest t := by
  unfold selectTest at h
  simp only at h
  split_ifs at h <;> simp only [Prod.mk.injEq, and_true] at h
  · exact Or.inl h.symm
  · exact Or.inr (Or.inl h.symm)
  · exact Or.inr (Or.inr (Or.inl h.symm))
  · exact Or.inr (Or.inr (Or.inr h.symm))
  · exact absurd h.2 (by simp)

theorem loop_outcome (t : Int) (tpm : TPM) (count : Int)
    (exec : TPM → List Command → Option GoError × List Command)
    (hexec : executor t = some exec) (n : Nat) :
    ∀ (i : Int) (issued : List Command) (bar : Nat), (count - i).toNat = n →
      (test.run.loop t tpm count i issued bar).1 = none ∨
        ∃ err, (test.run.loop t tpm count i issued bar).1 = some (.returned (some err)) := by
  induction n with
  | zero =>
    intro i issued bar hn
    rw [loop_done t tpm count i issued bar (by omega)]
    exact Or.inl rfl
  | succ n ih =>
    intro i issued bar hn
    cases hr : (exec tpm issued).1 with
    | some err =>
      rw [loop_step_error t tpm count i issued bar exec err (by omega) hexec hr]
      exact Or.inr ⟨err, rfl⟩
    | none =>
      rw [loop_step_ok t tpm count i issued bar exec (by omega) hexec hr]
      exact ih (i + 1) _ (bar + 1) (by omega)

theorem run_returns (t : Int) (tpm : TPM) (issued : List Command) (count duration : Int)
    (ht : validTest t) (hN : 0 < count) :
    ∃ e, (test.run t tpm issued count duration).outcome = .returned e := by
  obtain ⟨exec, hexec⟩ := (executor_isSome_iff t).mp ht
  have h := loop_outcome t tpm count exec hexec (count - 0).toNat 0
    (issued ++ [.Startup TPMSUClear]) 0 rfl
  rw [run_def]
  rcases hl : test.run.loop t tpm count 0 (issued ++ [.Startup TPMSUClear]) 0 with
    ⟨o, issued1, bar⟩
  rw [hl] at h ⊢
  have h0 : count ≠ 0 := by omega
  rcases h with h | ⟨err, h⟩
  · simp only at h
    subst h
    exact ⟨none, by simp [h0]⟩
  · simp only at h
    subst h
    exact ⟨some err, rfl⟩

theorem run_negative_count (t : Int) (tpm : TPM) (issued : List Command) (count duration : Int)
    (hN : count < 0) :
    test.run t tpm issued count duration =
      ⟨.returned none, issued ++ [.Startup TPMSUClear], 0,
        some ⟨test.String t, duration, wrapInt64 (Int.tdiv duration count)⟩⟩ := by
  rw [run_def, loop_done t tpm count 0 _ 0 (by omega)]
  have h0 : count ≠ 0 := by omega
  simp [h0]

theorem run_zero_count (t : Int) (tpm : TPM) (issued : List Command) (duration : Int) :
    test.run t tpm issued 0 duration =
      ⟨.panicked "runtime error: integer divide by zero", issued ++ [.Startup TPMSUClear], 0,
        none⟩ := by
  rw [run_def, loop_done t tpm 0 0 _ 0 (by omega)]
  simp

/-- C5, as the claim states it, fails: with the count -1, a recognized name
and a simulator that opens, `mainErr` opens the session, issues the startup
command, and returns nil after printing a report; no configuration error is
returned. -/
theorem mainErr_negative_count_runs :
    mainErr id "seal_unseal" (-1) (.ok workingTPM) 1000 =
      ⟨.returned none, true, true, [.Startup TPMSUClear],
        some ⟨"seal_unseal", 1000, -1000⟩⟩ := by
  have hs : selectTest id "seal_unseal" = (sealUnseal, none) := by decide
  simp only [mainErr, hs, run_negative_count sealUnseal workingTPM [] (-1) 1000 (by decide)]
  decide

/-- What `mainErr` does with a count of zero: the session is opened, the
startup command is issued, and the division by the count panics. -/
theorem mainErr_zero_count_panics :
    mainErr id "seal_unseal" 0 (.ok workingTPM) 1000 =
      ⟨.panicked "runtime error: integer divide by zero", true, true, [.Startup TPMSUClear],
        none⟩ := by
  have hs : selectTest id "seal_unseal" = (sealUnseal, none) := by decide
  simp only [mainErr, hs, run_zero_count sealUnseal workingTPM [] 1000]
  decide

/-- C5, amended: `mainErr` validates the scenario name only, and an
unrecognized name is returned as an error before the simulator is opened and
before any command.  The count is not validated: with a recognized name and a
simulator that opens, the session is opened and the startup command is issued
whatever the count; with a count below zero no iteration runs and `mainErr`
returns nil after printing a report; with a count above zero `mainErr`
returns, so the division by the count does not panic. -/
theorem mainErr_count_unchecked (lowerRune : Char → Char) (testName : String) (count : Int)
    (openSim : Except String TPM) (duration : Int) :
    (∀ t err, selectTest lowerRune testName = (t, some err) →
      mainErr lowerRune testName count openSim duration =
        ⟨.returned (some err), false, false, [], none⟩) ∧
    (∀ t tpm, selectTest lowerRune testName = (t, none) → openSim = .ok tpm →
      (mainErr lowerRune testName count openSim duration).opened = true ∧
      (∃ cmds, (mainErr lowerRune testName count openSim duration).issued =
        .Startup TPMSUClear :: cmds) ∧
      (count < 0 → mainErr lowerRune testName count openSim duration =
        ⟨.returned none, true, true, [.Startup TPMSUClear],
          some ⟨test.String t, duration, wrapInt64 (Int.tdiv duration count)⟩⟩) ∧
      (0 < count →
        ∃ e, (mainErr lowerRune testName count openSim duration).outcome = .returned e)) := by
  constructor
  · intro t err hsel
    simp only [mainErr, hsel]
  · intro t tpm hsel hopen
    subst hopen
    have hm : mainErr lowerRune testName count (.ok tpm) duration =
        ⟨(test.run t tpm [] count duration).outcome, true, true,
          (test.run t tpm [] count duration).issued,
          (test.run t tpm [] count duration).printed⟩ := by
      simp only [mainErr, hsel]
    rw [hm]
    refine ⟨rfl, ?_, ?_, ?_⟩
    · obtain ⟨cmds, hc, _⟩ := run_issued t tpm [] count duration
      exact ⟨cmds, by simpa using hc⟩
    · intro hN
      rw [run_negative_count t tpm [] count duration hN]
      rfl
    · intro hN
      exact run_returns t tpm [] count duration (selectTest_valid lowerRune testName t hsel) hN

theorem mainErr_count_unchecked_witness :
    mainErr id "pcr" (-3) (.ok workingTPM) 9 =
      ⟨.returned none, true, true, [.Startup TPMSUClear],
        some ⟨test.String pcrExtend, 9, wrapInt64 (Int.tdiv 9 (-3))⟩⟩ :=
  ((mainErr_count_unchecked id "pcr" (-3) (.ok workingTPM) 9).2 pcrExtend workingTPM
    (by decide) rfl).2.2.1 (by decide)

end TpmBench
